import Mathlib

/-!
# Fitness tracker: authentication and ownership layer

A shallow embedding of `src/middleware/auth.js`, `src/routes/auth.js`,
`src/routes/goals.js` and `src/routes/workouts.js`.

* A JavaScript string is the list of its UTF-16 code units, so that `.length`
  and the (non-unicode) regular expressions of the source see what they see
  in JavaScript.
* Text that is a literal of the source (messages, view names, titles) is a
  Lean `String`.
-/

namespace Health

/-! ## JavaScript strings -/

/-- A JavaScript string: its UTF-16 code units. -/
abbrev JsString := List Nat

/-- UTF-16 code units of one Unicode scalar value. -/
def utf16Char (c : Char) : List Nat :=
  if c.toNat < 0x10000 then [c.toNat]
  else [0xD800 + (c.toNat - 0x10000) / 0x400, 0xDC00 + (c.toNat - 0x10000) % 0x400]

/-- The JavaScript string written as the given text. -/
def utf16 (s : String) : JsString :=
  s.toList.flatMap utf16Char

/-! ## Character-class regular expressions

The source only uses regular expressions that are one character class,
`/[...]/`, without flags; `.test(s)` is true when some code unit of `s` is in
the class. -/

/-- One item of a character class: a single code unit or a range `lo-hi`. -/
inductive ClassItem where
  | single (c : Nat)
  | range (lo hi : Nat)
  deriving DecidableEq, Repr

/-- Whether the code unit `c` is matched by the class item. -/
def ClassItem.accepts : ClassItem → Nat → Bool
  | .single d, c => c == d
  | .range lo hi, c => decide (lo ≤ c) && decide (c ≤ hi)

/-- The expression `/[items]/.test(s)`. -/
def classTest (items : List ClassItem) (s : JsString) : Bool :=
  s.any (fun c => items.any (fun i => i.accepts c))

/-- The class `[a-z]`. -/
def lowerClass : List ClassItem := [.range 97 122]

/-- The class `[A-Z]`. -/
def upperClass : List ClassItem := [.range 65 90]

/-- The class `[0-9]`. -/
def digitClass : List ClassItem := [.range 48 57]

/-- The class of `src/middleware/auth.js` line 37, item by item: the escapes
`\-`, `\[`, `\]`, `\\` and `\/` each stand for the one character escaped. -/
def specialClass : List ClassItem :=
  [ .single 33,   -- !
    .single 64,   -- @
    .single 35,   -- #
    .single 36,   -- $
    .single 37,   -- %
    .single 94,   -- ^
    .single 38,   -- &
    .single 42,   -- *
    .single 40,   -- (
    .single 41,   -- )
    .single 95,   -- _
    .single 43,   -- +
    .single 45,   -- \-
    .single 61,   -- =
    .single 91,   -- \[
    .single 93,   -- \]
    .single 123,  -- opening brace
    .single 125,  -- closing brace
    .single 59,   -- ;
    .single 39,   -- single quote
    .single 58,   -- :
    .single 34,   -- double quote
    .single 92,   -- \\
    .single 124,  -- |
    .single 44,   -- ,
    .single 46,   -- .
    .single 60,   -- <
    .single 62,   -- >
    .single 47,   -- \/
    .single 63 ]  -- ?

/-! ## `validatePassword` (src/middleware/auth.js) -/

/-- The object returned by `validatePassword`. -/
structure PasswordValidation where
  isValid : Bool
  errors : List String
  deriving DecidableEq, Repr

def msgLength : String := "Password must be at least 8 characters long"
def msgLower : String := "Password must contain at least one lowercase letter"
def msgUpper : String := "Password must contain at least one uppercase letter"
def msgDigit : String := "Password must contain at least one number"
def msgSpecial : String := "Password must contain at least one special character"

/-- The function `validatePassword` applied to a string: five independent
`if` statements, each pushing its message. -/
def validatePassword (password : JsString) : PasswordValidation :=
  let errors : List String := []
  let errors := if password.length < 8 then errors ++ [msgLength] else errors
  let errors := if !classTest lowerClass password then errors ++ [msgLower] else errors
  let errors := if !classTest upperClass password then errors ++ [msgUpper] else errors
  let errors := if !classTest digitClass password then errors ++ [msgDigit] else errors
  let errors := if !classTest specialClass password then errors ++ [msgSpecial] else errors
  { isValid := errors.length == 0, errors := errors }

/-- The symbol set as the specification writes it. -/
def specSymbols : JsString :=
  utf16 "!@#$%^&*()_+-=[]\x7b\x7d;':\"\\|,.<>/?"

/-! ## Values of the request and of the database -/

/-- A value read from the request (a form field): absent (`undefined`) or a
string. Arrays and nested objects, which the body parser can also produce,
are outside the model. -/
abbrev Field := Option JsString

/-- JavaScript truthiness of a field: `undefined` and `""` are falsy. -/
def Field.truthy : Field → Bool
  | none => false
  | some s => !s.isEmpty

/-- A value sent to or read from the database: `NULL`, text or an integer.
What the database makes of a text sent to a numeric or date column is the
database's business; the model keeps the value the handler sent. -/
inductive SqlVal where
  | null
  | text (s : JsString)
  | int (n : Int)
  deriving DecidableEq, Repr

/-- A request value as a query parameter: the driver sends `undefined` as
`NULL`. -/
def SqlVal.ofField : Field → SqlVal
  | none => .null
  | some s => .text s

/-- The expression `x || null` as a query parameter. -/
def SqlVal.orNull (x : Field) : SqlVal :=
  if x.truthy then .ofField x else .null

/-- The expression `x || 0` as a query parameter. -/
def SqlVal.orZero (x : Field) : SqlVal :=
  if x.truthy then .ofField x else .int 0

/-- The expression `x || "text"` as a query parameter. -/
def SqlVal.orText (x : Field) (d : String) : SqlVal :=
  if x.truthy then .ofField x else .text (utf16 d)

/-- JavaScript truthiness of a value read from the database. -/
def SqlVal.truthy : SqlVal → Bool
  | .null => false
  | .text s => !s.isEmpty
  | .int n => n != 0

/-- The string a value becomes inside a template literal. -/
def SqlVal.toJsString : SqlVal → JsString
  | .null => utf16 "null"
  | .text s => s
  | .int n => utf16 (toString n)

/-- The code units that `String.prototype.trim` removes: white space and line
terminators. -/
def isJsWhitespace (c : Nat) : Bool :=
  c == 9 || c == 10 || c == 11 || c == 12 || c == 13 || c == 32 || c == 160 ||
  c == 0x1680 || (decide (0x2000 ≤ c) && decide (c ≤ 0x200A)) || c == 0x2028 ||
  c == 0x2029 || c == 0x202F || c == 0x205F || c == 0x3000 || c == 0xFEFF

/-- The method `s.trim()`. -/
def jsTrim (s : JsString) : JsString :=
  ((s.dropWhile isJsWhitespace).reverse.dropWhile isJsWhitespace).reverse

/-- The test `!x || p(x)`: `p` is only evaluated on a truthy `x`. -/
def Field.falsyOr (x : Field) (p : JsString → Bool) : Bool :=
  match x with
  | none => true
  | some s => s.isEmpty || p s

/-- The test `!x || x.trim() === ""` of the goal and workout forms. -/
def Field.blank (x : Field) : Bool :=
  x.falsyOr (fun s => jsTrim s == [])

/-- A value of a parsed body that a handler uses as a string before anything
has looked at what it is. The parsers of `src/index.js` (`express.urlencoded`
with `extended: true`, then `express.json`) give `undefined` or a string for a
field sent at most once as text, and an array, an object, a number, a boolean
or `null` for a field sent twice (`title=a&title=b`), with brackets or in a
JSON body; of such a value the handlers only see whether it is truthy. -/
inductive BodyValue where
  | field (x : Field)
  | other (truthy : Bool)
  deriving DecidableEq, Repr

/-- The test `!x || x.trim() === ""` on a value of the body; `none` when it
raises: a truthy value that is not a string has no method `trim`. -/
def BodyValue.blank : BodyValue → Option Bool
  | .field x => some x.blank
  | .other false => some true
  | .other true => none

/-- A value of the body as a query parameter. The handlers send it only after
the test above has found it not blank, so for a string; no other value is ever
sent. -/
def BodyValue.toSql : BodyValue → SqlVal
  | .field x => .ofField x
  | .other _ => .null

/-! ## Tables -/

/-- A row of `users`. -/
structure UserRow where
  id : Nat
  username : JsString
  email : JsString
  password_hash : JsString
  deriving DecidableEq, Repr

/-- A row of `user_profiles`, with the columns the login and register routes
write or read. -/
structure ProfileRow where
  user_id : Nat
  first_name : SqlVal
  last_name : SqlVal
  deriving DecidableEq, Repr

/-- A row of `goals`. -/
structure GoalRow where
  id : Nat
  user_id : Nat
  title : SqlVal
  description : SqlVal
  goal_type : SqlVal
  target_value : SqlVal
  current_value : SqlVal
  unit : SqlVal
  start_date : SqlVal
  target_date : SqlVal
  status : SqlVal
  deriving DecidableEq, Repr

/-- A row of `workouts`. -/
structure WorkoutRow where
  id : Nat
  user_id : Nat
  name : SqlVal
  workout_date : SqlVal
  duration_minutes : SqlVal
  total_calories : SqlVal
  notes : SqlVal
  rating : SqlVal
  deriving DecidableEq, Repr

/-- A row of `workout_exercises`: one exercise entry of a workout. -/
structure WorkoutExerciseRow where
  id : Nat
  workout_id : Nat
  exercise_id : SqlVal
  sets : SqlVal
  reps : SqlVal
  weight_kg : SqlVal
  duration_minutes : SqlVal
  calories_burned : SqlVal
  notes : SqlVal
  deriving DecidableEq, Repr

/-- A row of `exercises`. -/
structure ExerciseRow where
  id : Nat
  name : SqlVal
  muscle_group : SqlVal
  category_id : SqlVal
  deriving DecidableEq, Repr

/-- A row of `exercise_categories`. -/
structure CategoryRow where
  id : Nat
  name : SqlVal
  deriving DecidableEq, Repr

/-- The database: its tables, and the next generated key of the tables the
modelled routes insert into. -/
structure Db where
  users : List UserRow
  user_profiles : List ProfileRow
  goals : List GoalRow
  workouts : List WorkoutRow
  workout_exercises : List WorkoutExerciseRow
  exercises : List ExerciseRow
  exercise_categories : List CategoryRow
  nextUserId : Nat
  nextWorkoutExerciseId : Nat
  deriving DecidableEq, Repr

/-! ## Query results that join tables -/

/-- A row of the exercise list: `e.*` with the name of its category. -/
structure ExerciseListRow where
  exercise : ExerciseRow
  category_name : SqlVal
  deriving DecidableEq, Repr

/-- An exercise entry with the columns joined to it from `exercises` and
`exercise_categories` (`muscle_group` and `category_name` are only selected
by the detail view, and are `NULL` here for the form). -/
structure WorkoutExerciseView where
  entry : WorkoutExerciseRow
  exercise_name : SqlVal
  muscle_group : SqlVal
  category_name : SqlVal
  deriving DecidableEq, Repr

/-! ## The environment of a request -/

/-- What the handlers use and this repository does not define: the process
environment, the comparison rules of the database, the storage faults, the
password hashing library, and the floating point and clock arithmetic of the
goal routes. Every handler is modelled for an arbitrary environment. -/
structure Env where
  /-- The variable `process.env.BASE_PATH`. -/
  BASE_PATH : Field
  /-- The `=` of the database on two texts (it depends on the collation). -/
  sqlTextEq : JsString → JsString → Bool
  /-- The integer key that a string parameter equals under `id = ?`, if any. -/
  sqlKey : JsString → Option Nat
  /-- Whether the statement sent to the pool after `n` earlier ones is
  rejected (a storage fault). -/
  queryFails : Nat → Bool
  /-- The call `bcrypt.compare(password, hash)`; `none` when it rejects. -/
  bcryptCompare : JsString → JsString → Option Bool
  /-- The call `bcrypt.hash(password, saltRounds)`; `none` when it rejects. -/
  bcryptHash : JsString → Nat → Option JsString
  /-- The clause `ORDER BY c.name, e.name` of the exercise list. -/
  orderExerciseList : List ExerciseListRow → List ExerciseListRow
  /-- The clause `ORDER BY name` of the category list. -/
  orderCategories : List CategoryRow → List CategoryRow
  /-- The comparison `v > 0` on a value read from the database. -/
  gtZero : SqlVal → Bool
  /-- The number `Math.round((current / target) * 100)`. -/
  roundPercent : SqlVal → SqlVal → Int
  /-- The comparison `parseFloat(a) >= parseFloat(b)`. -/
  parseFloatGe : Field → SqlVal → Bool
  /-- The number `Math.ceil((new Date(target_date) - new Date()) / 86400000)`. -/
  daysRemaining : SqlVal → Int
  /-- Whether the schema deletes the entries of a deleted workout
  (`ON DELETE CASCADE` on `workout_exercises.workout_id`). -/
  cascadeWorkoutExercises : Bool
  /-- The clause `ORDER BY FIELD(status, ...), target_date ASC` of the goal list. -/
  orderGoals : List GoalRow → List GoalRow

/-- The helper `getBasePath`: `process.env.BASE_PATH || ""`. -/
def getBasePath (env : Env) : JsString :=
  match env.BASE_PATH with
  | some s => if s.isEmpty then [] else s
  | none => []

/-- Whether a value of a key column equals the key `k`. -/
def SqlVal.keyEq (env : Env) : SqlVal → Nat → Bool
  | .null, _ => false
  | .text s, k => env.sqlKey s == some k
  | .int n, k => n == (k : Int)

/-! ## Statements sent to the pool -/

/-- The values of the `UPDATE goals SET ...` statement of the edit route. -/
structure GoalValues where
  title : SqlVal
  description : SqlVal
  goal_type : SqlVal
  target_value : SqlVal
  current_value : SqlVal
  unit : SqlVal
  start_date : SqlVal
  target_date : SqlVal
  status : SqlVal
  deriving DecidableEq, Repr

/-- The values of the `UPDATE workouts SET ...` statement. -/
structure WorkoutValues where
  name : SqlVal
  workout_date : SqlVal
  duration_minutes : SqlVal
  total_calories : SqlVal
  notes : SqlVal
  rating : SqlVal
  deriving DecidableEq, Repr

/-- The values of the `INSERT INTO workout_exercises` statement, after the
workout id. -/
structure EntryValues where
  exercise_id : SqlVal
  sets : SqlVal
  reps : SqlVal
  weight_kg : SqlVal
  duration_minutes : SqlVal
  calories_burned : SqlVal
  notes : SqlVal
  deriving DecidableEq, Repr

/-- The SQL statements of the modelled routes, with their parameters. -/
inductive Stmt where
  /-- `SELECT * FROM users WHERE username = ?` -/
  | selectUserByUsername (username : JsString)
  /-- `SELECT * FROM user_profiles WHERE user_id = ?` -/
  | selectProfileByUserId (userId : Nat)
  /-- `SELECT * FROM users WHERE username = ? OR email = ?` -/
  | selectUserByUsernameOrEmail (username email : JsString)
  /-- `INSERT INTO users (username, email, password_hash) VALUES (?, ?, ?)` -/
  | insertUser (username email passwordHash : JsString)
  /-- `INSERT INTO user_profiles (user_id, first_name, last_name) VALUES (?, ?, ?)` -/
  | insertProfile (userId : Nat) (firstName lastName : SqlVal)
  /-- `SELECT * FROM goals WHERE id = ? AND user_id = ?` -/
  | selectGoal (id : JsString) (userId : Nat)
  /-- `UPDATE goals SET title = ?, ... , status = ? WHERE id = ? AND user_id = ?` -/
  | updateGoal (values : GoalValues) (id : JsString) (userId : Nat)
  /-- `UPDATE goals SET current_value = ?, status = ? WHERE id = ? AND user_id = ?` -/
  | updateGoalProgress (currentValue status : SqlVal) (id : JsString) (userId : Nat)
  /-- `DELETE FROM goals WHERE id = ? AND user_id = ?` -/
  | deleteGoal (id : JsString) (userId : Nat)
  /-- `SELECT w.* FROM workouts w WHERE w.id = ? AND w.user_id = ?` -/
  | selectWorkout (id : JsString) (userId : Nat)
  /-- `SELECT e.*, c.name as category_name FROM exercises e LEFT JOIN ...` -/
  | selectExerciseList
  /-- `SELECT * FROM exercise_categories ORDER BY name` -/
  | selectCategories
  /-- `SELECT we.*, e.name as exercise_name, e.muscle_group, c.name as category_name
  FROM workout_exercises we JOIN exercises e ... WHERE we.workout_id = ?` -/
  | selectWorkoutExercisesDetail (workoutId : JsString)
  /-- `SELECT we.*, e.name as exercise_name FROM workout_exercises we
  JOIN exercises e ON we.exercise_id = e.id WHERE we.workout_id = ?` -/
  | selectWorkoutExercisesForm (workoutId : JsString)
  /-- `UPDATE workouts SET name = ?, ... , rating = ? WHERE id = ? AND user_id = ?` -/
  | updateWorkout (values : WorkoutValues) (id : JsString) (userId : Nat)
  /-- `DELETE FROM workouts WHERE id = ? AND user_id = ?` -/
  | deleteWorkout (id : JsString) (userId : Nat)
  /-- `INSERT INTO workout_exercises (workout_id, exercise_id, ...) VALUES (...)` -/
  | insertWorkoutExercise (workoutId : JsString) (values : EntryValues)
  /-- `SELECT we.* FROM workout_exercises we JOIN workouts w ON we.workout_id = w.id
  WHERE we.id = ? AND w.user_id = ?` -/
  | selectOwnedWorkoutExercise (exerciseId : JsString) (userId : Nat)
  /-- `DELETE FROM workout_exercises WHERE id = ?` -/
  | deleteWorkoutExercise (exerciseId : JsString)
  /-- `SELECT * FROM goals WHERE user_id = ?`, with ` AND status = ?` when a
  status is given, ordered. -/
  | selectGoals (userId : Nat) (status : Option JsString)
  deriving DecidableEq, Repr

/-- The database together with the statements sent to it so far. -/
structure Store where
  db : Db
  log : List Stmt
  deriving DecidableEq, Repr

/-- The call `await pool.query(stmt)`: the statement is recorded; it is
rejected (`none`) when the environment says so, and otherwise `run` gives its
result and the tables after it. -/
def Env.query {α : Type} (env : Env) (stmt : Stmt) (run : Db → α × Db) (s : Store) :
    Option α × Store :=
  if env.queryFails s.log.length then (none, { s with log := s.log ++ [stmt] })
  else (some (run s.db).1, { db := (run s.db).2, log := s.log ++ [stmt] })

/-- A statement that only reads. -/
def Env.select {α : Type} (env : Env) (stmt : Stmt) (rows : Db → α) (s : Store) :
    Option α × Store :=
  env.query stmt (fun db => (rows db, db)) s

/-! ## What the statements do on the tables -/

/-- Rows of `SELECT * FROM users WHERE username = ?`. -/
def Db.usersByUsername (env : Env) (db : Db) (username : JsString) : List UserRow :=
  db.users.filter (fun u => env.sqlTextEq u.username username)

/-- Rows of `SELECT * FROM user_profiles WHERE user_id = ?`. -/
def Db.profilesByUserId (db : Db) (userId : Nat) : List ProfileRow :=
  db.user_profiles.filter (fun p => p.user_id == userId)

/-- Rows of `SELECT * FROM users WHERE username = ? OR email = ?`. -/
def Db.usersByUsernameOrEmail (env : Env) (db : Db) (username email : JsString) :
    List UserRow :=
  db.users.filter (fun u => env.sqlTextEq u.username username || env.sqlTextEq u.email email)

/-- The user insert: the generated id (`result.insertId`) and the tables after it. -/
def Db.insertUser (db : Db) (username email passwordHash : JsString) : Nat × Db :=
  (db.nextUserId,
    { db with
      users := db.users ++
        [{ id := db.nextUserId, username := username, email := email,
           password_hash := passwordHash }]
      nextUserId := db.nextUserId + 1 })

/-- The profile insert. -/
def Db.insertProfile (db : Db) (userId : Nat) (firstName lastName : SqlVal) : Unit × Db :=
  ((), { db with
    user_profiles := db.user_profiles ++
      [{ user_id := userId, first_name := firstName, last_name := lastName }] })

/-- The condition `id = ? AND user_id = ?` on a row with the given key and owner. -/
def ownedMatch (env : Env) (id : JsString) (userId : Nat) (rowId rowUser : Nat) : Bool :=
  env.sqlKey id == some rowId && rowUser == userId

/-- Rows of `SELECT * FROM goals WHERE id = ? AND user_id = ?`. -/
def Db.goalsByIdAndUser (env : Env) (db : Db) (id : JsString) (userId : Nat) : List GoalRow :=
  db.goals.filter (fun g => ownedMatch env id userId g.id g.user_id)

/-- The goal update of the edit route. -/
def Db.updateGoal (env : Env) (db : Db) (v : GoalValues) (id : JsString) (userId : Nat) :
    Unit × Db :=
  ((), { db with
    goals := db.goals.map (fun g =>
      if ownedMatch env id userId g.id g.user_id then
        { g with
          title := v.title, description := v.description, goal_type := v.goal_type,
          target_value := v.target_value, current_value := v.current_value, unit := v.unit,
          start_date := v.start_date, target_date := v.target_date, status := v.status }
      else g) })

/-- The goal update of the progress route. -/
def Db.updateGoalProgress (env : Env) (db : Db) (currentValue status : SqlVal)
    (id : JsString) (userId : Nat) : Unit × Db :=
  ((), { db with
    goals := db.goals.map (fun g =>
      if ownedMatch env id userId g.id g.user_id then
        { g with current_value := currentValue, status := status }
      else g) })

/-- The goal delete: `result.affectedRows` and the tables after it. -/
def Db.deleteGoal (env : Env) (db : Db) (id : JsString) (userId : Nat) : Nat × Db :=
  ((db.goals.filter (fun g => ownedMatch env id userId g.id g.user_id)).length,
    { db with goals := db.goals.filter (fun g => !ownedMatch env id userId g.id g.user_id) })

/-- Rows of `SELECT w.* FROM workouts w WHERE w.id = ? AND w.user_id = ?`. -/
def Db.workoutsByIdAndUser (env : Env) (db : Db) (id : JsString) (userId : Nat) :
    List WorkoutRow :=
  db.workouts.filter (fun w => ownedMatch env id userId w.id w.user_id)

/-- The category names that `LEFT JOIN exercise_categories c ON e.category_id = c.id`
joins to an exercise: `NULL` when no category matches. -/
def Db.categoryNames (env : Env) (db : Db) (e : ExerciseRow) : List SqlVal :=
  match db.exercise_categories.filter (fun c => e.category_id.keyEq env c.id) with
  | [] => [.null]
  | c :: cs => (c :: cs).map (fun c => c.name)

/-- Rows of the exercise list. -/
def Db.exerciseList (env : Env) (db : Db) : List ExerciseListRow :=
  env.orderExerciseList
    (db.exercises.flatMap (fun e =>
      (db.categoryNames env e).map (fun n => { exercise := e, category_name := n })))

/-- Rows of `SELECT * FROM exercise_categories ORDER BY name`. -/
def Db.categories (env : Env) (db : Db) : List CategoryRow :=
  env.orderCategories db.exercise_categories

/-- Rows of the entries of a workout for the detail view. -/
def Db.workoutExercisesDetail (env : Env) (db : Db) (workoutId : JsString) :
    List WorkoutExerciseView :=
  (db.workout_exercises.filter (fun we => env.sqlKey workoutId == some we.workout_id)).flatMap
    (fun we =>
      (db.exercises.filter (fun e => we.exercise_id.keyEq env e.id)).flatMap (fun e =>
        (db.categoryNames env e).map (fun n =>
          { entry := we, exercise_name := e.name, muscle_group := e.muscle_group,
            category_name := n })))

/-- Rows of the entries of a workout for the form. -/
def Db.workoutExercisesForm (env : Env) (db : Db) (workoutId : JsString) :
    List WorkoutExerciseView :=
  (db.workout_exercises.filter (fun we => env.sqlKey workoutId == some we.workout_id)).flatMap
    (fun we =>
      (db.exercises.filter (fun e => we.exercise_id.keyEq env e.id)).map (fun e =>
        { entry := we, exercise_name := e.name, muscle_group := .null,
          category_name := .null }))

/-- The workout update. -/
def Db.updateWorkout (env : Env) (db : Db) (v : WorkoutValues) (id : JsString)
    (userId : Nat) : Unit × Db :=
  ((), { db with
    workouts := db.workouts.map (fun w =>
      if ownedMatch env id userId w.id w.user_id then
        { w with
          name := v.name, workout_date := v.workout_date,
          duration_minutes := v.duration_minutes, total_calories := v.total_calories,
          notes := v.notes, rating := v.rating }
      else w) })

/-- The workout delete: `result.affectedRows` and the tables after it. When the
schema cascades, the entries of the deleted workouts go with them. -/
def Db.deleteWorkout (env : Env) (db : Db) (id : JsString) (userId : Nat) : Nat × Db :=
  let gone := db.workouts.filter (fun w => ownedMatch env id userId w.id w.user_id)
  (gone.length,
    { db with
      workouts := db.workouts.filter (fun w => !ownedMatch env id userId w.id w.user_id)
      workout_exercises :=
        if env.cascadeWorkoutExercises then
          db.workout_exercises.filter (fun we => !gone.any (fun w => w.id == we.workout_id))
        else db.workout_exercises })

/-- The entry insert. The workout id is the route parameter; the row gets the
key that parameter equals (the ownership query has just matched it). -/
def Db.insertWorkoutExercise (env : Env) (db : Db) (workoutId : JsString) (v : EntryValues) :
    Unit × Db :=
  match env.sqlKey workoutId with
  | none => ((), db)
  | some k =>
    ((), { db with
      workout_exercises := db.workout_exercises ++
        [{ id := db.nextWorkoutExerciseId, workout_id := k, exercise_id := v.exercise_id,
           sets := v.sets, reps := v.reps, weight_kg := v.weight_kg,
           duration_minutes := v.duration_minutes, calories_burned := v.calories_burned,
           notes := v.notes }]
      nextWorkoutExerciseId := db.nextWorkoutExerciseId + 1 })

/-- Rows of `SELECT we.* FROM workout_exercises we JOIN workouts w ON we.workout_id = w.id
WHERE we.id = ? AND w.user_id = ?`: one row per pair of an entry and a workout. -/
def Db.ownedWorkoutExercises (env : Env) (db : Db) (exerciseId : JsString) (userId : Nat) :
    List WorkoutExerciseRow :=
  db.workout_exercises.flatMap (fun we =>
    (db.workouts.filter (fun w =>
      we.workout_id == w.id && env.sqlKey exerciseId == some we.id && w.user_id == userId)).map
      (fun _ => we))

/-- The statement `DELETE FROM workout_exercises WHERE id = ?`. -/
def Db.deleteWorkoutExercise (env : Env) (db : Db) (exerciseId : JsString) : Unit × Db :=
  ((), { db with
    workout_exercises :=
      db.workout_exercises.filter (fun we => !(env.sqlKey exerciseId == some we.id)) })

/-! ## Sessions, pages and responses -/

/-- The `profile` of the session user. -/
inductive SessionProfile where
  /-- Login without a profile row: `null`. -/
  | null
  /-- Login: the profile row `profiles[0]`. -/
  | row (p : ProfileRow)
  /-- Registration: the object of the two submitted names. -/
  | names (first_name last_name : Field)
  deriving DecidableEq, Repr

/-- The object `req.session.user`. -/
structure SessionUser where
  id : Nat
  username : JsString
  email : JsString
  profile : SessionProfile
  deriving DecidableEq, Repr

/-- The object `req.session`, with the properties the routes use. -/
structure Session where
  user : Option SessionUser
  success : Option JsString
  error : Option JsString
  deriving DecidableEq, Repr

/-- The form values given back to the register view. -/
structure RegisterFormData where
  username : Field
  email : Field
  firstName : Field
  lastName : Field
  deriving DecidableEq, Repr

/-- The fields of the goal form. -/
structure GoalFields where
  title : BodyValue
  description : Field
  goalType : Field
  targetValue : Field
  currentValue : Field
  unit : Field
  startDate : Field
  targetDate : Field
  status : Field
  deriving DecidableEq, Repr

/-- The fields of the workout form. -/
structure WorkoutFields where
  name : BodyValue
  workoutDate : Field
  durationMinutes : Field
  totalCalories : Field
  notes : Field
  rating : Field
  deriving DecidableEq, Repr

/-- The fields of the form that adds an exercise to a workout. -/
structure EntryFields where
  exerciseId : Field
  sets : Field
  reps : Field
  weight : Field
  duration : Field
  calories : Field
  notes : Field
  deriving DecidableEq, Repr

/-- The `goal` given to the goal form: a row, or a row overwritten with the
submitted fields. -/
inductive GoalFormGoal where
  | row (g : GoalRow)
  | merged (g : GoalRow) (f : GoalFields)
  deriving DecidableEq, Repr

/-- The `workout` given to the workout form: a row, or a row overwritten with
the submitted fields. -/
inductive WorkoutFormWorkout where
  | row (w : WorkoutRow)
  | merged (w : WorkoutRow) (f : WorkoutFields)
  deriving DecidableEq, Repr

/-- A rendered view with its locals. -/
inductive Page where
  /-- View `auth/login`. -/
  | authLogin (title : String) (errors : List String)
  /-- View `auth/register`. -/
  | authRegister (title : String) (errors : List String) (formData : RegisterFormData)
  /-- View `404`. -/
  | notFound (title : String)
  /-- View `error`. -/
  | error (title message : String)
  /-- View `goals/detail`. -/
  | goalsDetail (title : JsString) (goal : GoalRow) (progress : Int)
      (daysRemaining : Option Int)
  /-- View `goals/form`. -/
  | goalsForm (title : String) (goal : GoalFormGoal) (errors : List String)
  /-- View `workouts/detail`. -/
  | workoutsDetail (title : JsString) (workout : WorkoutRow)
      (workoutExercises : List WorkoutExerciseView)
  /-- View `workouts/form`. -/
  | workoutsForm (title : String) (workout : WorkoutFormWorkout)
      (exercises : List ExerciseListRow) (categories : List CategoryRow)
      (workoutExercises : List WorkoutExerciseView) (errors : List String)
  /-- View `goals/list`: each goal with its `progress`. -/
  | goalsList (title : String) (goals : List (GoalRow × Int)) (selectedStatus : JsString)
  deriving DecidableEq, Repr

/-- What a handler does with `res`. -/
inductive Response where
  /-- The call `res.status(status).render(view, locals)` (status 200 when not set). -/
  | render (status : Nat) (page : Page)
  /-- The call `res.redirect(location)`. -/
  | redirect (location : JsString)
  /-- The call `res.status(status).json(\x7b error \x7d)`. -/
  | json (status : Nat) (error : String)
  /-- No response: an error left the handler (its promise is rejected). -/
  | uncaught (error : String)
  deriving DecidableEq, Repr

/-- What a request sees and changes: its session and the store. -/
structure State where
  session : Session
  store : Store
  deriving DecidableEq, Repr

/-- The outcome of a request. -/
structure Result where
  state : State
  response : Response
  deriving DecidableEq, Repr

/-! ## The guards (src/middleware/auth.js) -/

/-- What a middleware does: call `next()`, or answer itself. -/
inductive Decision where
  | next
  | respond (session : Session) (response : Response)
  deriving DecidableEq, Repr

/-- The middleware `isAuthenticated`. -/
def isAuthenticated (session : Session) : Decision :=
  if session.user.isSome then .next
  else
    .respond { session with error := some (utf16 "Please log in to access this page") }
      (.redirect (utf16 "/auth/login"))

/-- The middleware `isNotAuthenticated`. -/
def isNotAuthenticated (session : Session) : Decision :=
  if !session.user.isSome then .next
  else .respond session (.redirect (utf16 "/"))

/-- A route `router.METHOD(path, guard, handler)`: the handler runs only when
the guard calls `next()`. -/
def route (guard : Session → Decision) (handler : State → Result) (st : State) : Result :=
  match guard st.session with
  | .next => handler st
  | .respond session response =>
    { state := { st with session := session }, response := response }

/-! ## Login and registration (src/routes/auth.js) -/

/-- The body of `POST /auth/login`. -/
structure LoginForm where
  username : Field
  password : Field
  deriving DecidableEq, Repr

/-- The body of `POST /auth/register`. -/
structure RegisterForm where
  username : Field
  email : Field
  password : Field
  confirmPassword : Field
  firstName : Field
  lastName : Field
  deriving DecidableEq, Repr

def loginTitle : String := "Login - Fitness Tracker"
def registerTitle : String := "Register - Fitness Tracker"
def msgMissingCredentials : String := "Please enter both username and password"
def msgInvalidCredentials : String := "Invalid username or password"
def msgLoginFault : String := "An error occurred. Please try again."
def msgUsername : String := "Username must be at least 3 characters"
def msgEmail : String := "Please enter a valid email address"
def msgMismatch : String := "Passwords do not match"
def msgUsernameTaken : String := "Username already taken"
def msgEmailRegistered : String := "Email already registered"
def msgRegisterFault : String := "An error occurred during registration. Please try again."

/-- The login view rendered with one error, the store being as given. -/
def loginFailure (st : State) (store : Store) (msg : String) : Result :=
  { state := { st with store := store },
    response := .render 200 (.authLogin loginTitle [msg]) }

/-- The handler of `POST /auth/login` from line 26 on, with the fields that
line 25 has taken from the body. Every rejection inside the `try` block ends
in the `catch` block, which renders the login view. -/
def loginFields (env : Env) (body : LoginForm) (st : State) : Result :=
  match body.username, body.password with
  | some username, some password =>
    if username.isEmpty || password.isEmpty then
      loginFailure st st.store msgMissingCredentials
    else
      match env.select (.selectUserByUsername username)
          (fun db => db.usersByUsername env username) st.store with
      | (none, store) => loginFailure st store msgLoginFault
      | (some [], store) => loginFailure st store msgInvalidCredentials
      | (some (user :: _), store) =>
        match env.bcryptCompare password user.password_hash with
        | none => loginFailure st store msgLoginFault
        | some false => loginFailure st store msgInvalidCredentials
        | some true =>
          match env.select (.selectProfileByUserId user.id)
              (fun db => db.profilesByUserId user.id) store with
          | (none, store) => loginFailure st store msgLoginFault
          | (some profiles, store) =>
            { state :=
                { session :=
                    { st.session with
                      user := some
                        { id := user.id, username := user.username, email := user.email,
                          profile :=
                            match profiles with
                            | [] => .null
                            | p :: _ => .row p }
                      success := some (utf16 "Welcome back, " ++ user.username ++ utf16 "!") }
                  store := store },
              response := .redirect (getBasePath env ++ utf16 "/") }
  | _, _ => loginFailure st st.store msgMissingCredentials

/-- The handler of `POST /auth/login` (lines 24-81). `req.body` is the object
of the parsed fields, or `undefined` when no body parser has filled it (a
request without a body, with the parsers of Express 5; those of Express 4
always give an object). Line 25 takes the fields from it outside the `try`
block, which raises on `undefined`. -/
def loginHandler (env : Env) (body : Option LoginForm) (st : State) : Result :=
  match body with
  | none =>
    { state := st,
      response := .uncaught
        "TypeError: Cannot destructure property 'username' of 'req.body' as it is undefined." }
  | some fields => loginFields env fields st

/-- The route `router.post("/login", isNotAuthenticated, ...)` on a request of
which `req.body` is whatever the body parsers left. -/
def postLoginRequest (env : Env) (body : Option LoginForm) : State → Result :=
  route isNotAuthenticated (loginHandler env body)

/-- The route `router.post("/login", isNotAuthenticated, ...)` on a request
with a parsed body. -/
def postLogin (env : Env) (body : LoginForm) : State → Result :=
  postLoginRequest env (some body)

/-- The validation of the register handler (lines 96-115): the errors it
collects, or the `TypeError` that `validatePassword` raises at
`password.length` when the password is `undefined`. -/
def registerValidation (body : RegisterForm) : Except String (List String) :=
  let errors : List String := []
  let errors :=
    if body.username.falsyOr (fun u => u.length < 3) then errors ++ [msgUsername] else errors
  let errors :=
    if body.email.falsyOr (fun e => !e.contains 64) then errors ++ [msgEmail] else errors
  match body.password with
  | none => .error "TypeError: Cannot read properties of undefined (reading 'length')"
  | some password =>
    let passwordValidation := validatePassword password
    let errors :=
      if !passwordValidation.isValid then errors ++ passwordValidation.errors else errors
    let errors :=
      if body.password != body.confirmPassword then errors ++ [msgMismatch] else errors
    .ok errors

/-- The register view rendered with the given errors and the submitted values
other than the passwords. -/
def registerFailure (body : RegisterForm) (st : State) (store : Store)
    (errors : List String) : Result :=
  { state := { st with store := store },
    response := .render 200 (.authRegister registerTitle errors
      { username := body.username, email := body.email, firstName := body.firstName,
        lastName := body.lastName }) }

/-- The `try` block of the register handler (lines 125-173), run when the
validation found no error, so that the three fields are strings. -/
def registerStore (env : Env) (body : RegisterForm) (username email password : JsString)
    (st : State) : Result :=
  match env.select (.selectUserByUsernameOrEmail username email)
      (fun db => db.usersByUsernameOrEmail env username email) st.store with
  | (none, store) => registerFailure body st store [msgRegisterFault]
  | (some (existing :: _), store) =>
    registerFailure body st store
      [if existing.username == username then msgUsernameTaken else msgEmailRegistered]
  | (some [], store) =>
    match env.bcryptHash password 10 with
    | none => registerFailure body st store [msgRegisterFault]
    | some passwordHash =>
      match env.query (.insertUser username email passwordHash)
          (fun db => db.insertUser username email passwordHash) store with
      | (none, store) => registerFailure body st store [msgRegisterFault]
      | (some userId, store) =>
        match env.query
            (.insertProfile userId (.orNull body.firstName) (.orNull body.lastName))
            (fun db => db.insertProfile userId (.orNull body.firstName)
              (.orNull body.lastName)) store with
        | (none, store) => registerFailure body st store [msgRegisterFault]
        | (some _, store) =>
          { state :=
              { session :=
                  { st.session with
                    user := some
                      { id := userId, username := username, email := email,
                        profile := .names body.firstName body.lastName }
                    success := some
                      (utf16 "Account created successfully! Welcome to Fitness Tracker!") }
                store := store },
            response := .redirect (getBasePath env ++ utf16 "/") }

/-- The handler of `POST /auth/register` (lines 93-183). The last case is
`errors.length > 0`: an absent username or email always leaves an error. -/
def registerHandler (env : Env) (body : RegisterForm) (st : State) : Result :=
  match registerValidation body with
  | .error e => { state := st, response := .uncaught e }
  | .ok errors =>
    match errors, body.username, body.email, body.password with
    | [], some username, some email, some password =>
      registerStore env body username email password st
    | _, _, _, _ => registerFailure body st st.store errors

/-- The route `router.post("/register", isNotAuthenticated, ...)`. -/
def postRegister (env : Env) (body : RegisterForm) : State → Result :=
  route isNotAuthenticated (registerHandler env body)

/-! ### Logout

The session library is not part of this repository. The `session` of a
`State` is the entry of the request's session in the session store, which a
later request with the same cookie resolves. -/

/-- What `req.session.destroy(callback)` did in the session store: the entry
is removed and the callback gets no error, or the callback gets an error and
the entry is kept or not, as the store left it. (`src/index.js` configures no
store, so the in-memory store of the library is used.) -/
inductive DestroyOutcome where
  | removed
  | failed (err : String) (entryKept : Bool)
  deriving DecidableEq, Repr

/-- The session that a request gets when the store has no entry for it. -/
def newSession : Session :=
  { user := none, success := none, error := none }

/-- The handler of `GET /auth/logout` (lines 186-193): an error of `destroy` is
logged and nothing else; the redirect is sent in both cases. -/
def logoutHandler (env : Env) (d : DestroyOutcome) (st : State) : Result :=
  match d with
  | .removed =>
    { state := { st with session := newSession },
      response := .redirect (getBasePath env ++ utf16 "/") }
  | .failed _ entryKept =>
    { state := { st with session := if entryKept then st.session else newSession },
      response := .redirect (getBasePath env ++ utf16 "/") }

/-- Whether the store has no entry for the session after `destroy`. -/
def DestroyOutcome.entryGone : DestroyOutcome → Bool
  | .removed => true
  | .failed _ entryKept => !entryKept

/-- The route `router.get("/logout", ...)`, which has no guard. -/
def getLogout (env : Env) (d : DestroyOutcome) : State → Result :=
  logoutHandler env d

/-! ## Goal routes (src/routes/goals.js)

Every handler runs behind `isAuthenticated`. Inside a `try` block, reading
`req.session.user.id` without a session user would raise and end in the
`catch` block; the routes below never get there. -/

/-- The response `res.status(404).render("404", ...)` of the goal routes. -/
def goalNotFound (st : State) (store : Store) : Result :=
  { state := { st with store := store }, response := .render 404 (.notFound "Goal Not Found") }

/-- The response of the `catch` blocks that render the error view. -/
def serverError (st : State) (store : Store) (message : String) : Result :=
  { state := { st with store := store }, response := .render 500 (.error "Error" message) }

/-- A redirect after setting `req.session.success`. -/
def redirectSuccess (st : State) (store : Store) (msg : String) (location : JsString) :
    Result :=
  { state := { session := { st.session with success := some (utf16 msg) }, store := store },
    response := .redirect location }

/-- A redirect after setting `req.session.error`. -/
def redirectError (st : State) (store : Store) (msg : String) (location : JsString) :
    Result :=
  { state := { session := { st.session with error := some (utf16 msg) }, store := store },
    response := .redirect location }

/-- The progress percentage of a goal (lines 157-165, and 26-35 in the list). -/
def goalProgress (env : Env) (goal : GoalRow) : Int :=
  if goal.target_value.truthy && env.gtZero goal.target_value then
    min 100 (env.roundPercent goal.current_value goal.target_value)
  else 0

/-- The handler of `GET /goals/:id` (lines 144-185). -/
def goalViewHandler (env : Env) (id : JsString) (st : State) : Result :=
  match st.session.user with
  | none => serverError st st.store "Could not load goal"
  | some user =>
    match env.select (.selectGoal id user.id)
        (fun db => db.goalsByIdAndUser env id user.id) st.store with
    | (none, store) => serverError st store "Could not load goal"
    | (some [], store) => goalNotFound st store
    | (some (goal :: _), store) =>
      { state := { st with store := store },
        response := .render 200
          (.goalsDetail (goal.title.toJsString ++ utf16 " - Fitness Tracker") goal
            (goalProgress env goal)
            (if goal.target_date.truthy then some (env.daysRemaining goal.target_date)
             else none)) }

/-- The handler of `GET /goals/:id/edit` (lines 188-210). -/
def goalEditFormHandler (env : Env) (id : JsString) (st : State) : Result :=
  match st.session.user with
  | none => serverError st st.store "Could not load goal"
  | some user =>
    match env.select (.selectGoal id user.id)
        (fun db => db.goalsByIdAndUser env id user.id) st.store with
    | (none, store) => serverError st store "Could not load goal"
    | (some [], store) => goalNotFound st store
    | (some (goal :: _), store) =>
      { state := { st with store := store },
        response := .render 200 (.goalsForm "Edit Goal - Fitness Tracker" (.row goal) []) }

/-- The parameters of the goal update, from the submitted fields. -/
def GoalFields.values (f : GoalFields) : GoalValues :=
  { title := f.title.toSql
    description := .orNull f.description
    goal_type := .ofField f.goalType
    target_value := .orNull f.targetValue
    current_value := .orZero f.currentValue
    unit := .orNull f.unit
    start_date := .ofField f.startDate
    target_date := .orNull f.targetDate
    status := .orText f.status "active" }

/-- The handler of `POST /goals/:id/edit` (lines 213-287), on a parsed body.
The test of the title (line 227) stands before the `try` block (line 231):
when it raises, nothing catches the error and no statement has been sent. -/
def goalUpdateHandler (env : Env) (id : JsString) (f : GoalFields) (st : State) : Result :=
  let errors : List String := []
  match f.title.blank with
  | none => { state := st, response := .uncaught "TypeError: title.trim is not a function" }
  | some blank =>
    let errors := if blank then errors ++ ["Goal title is required"] else errors
    match st.session.user with
    | none => serverError st st.store "Could not update goal"
    | some user =>
      match env.select (.selectGoal id user.id)
          (fun db => db.goalsByIdAndUser env id user.id) st.store with
      | (none, store) => serverError st store "Could not update goal"
      | (some [], store) => goalNotFound st store
      | (some (existing :: _), store) =>
        if errors.length > 0 then
          { state := { st with store := store },
            response := .render 200
              (.goalsForm "Edit Goal - Fitness Tracker" (.merged existing f) errors) }
        else
          match env.query (.updateGoal f.values id user.id)
              (fun db => db.updateGoal env f.values id user.id) store with
          | (none, store) => serverError st store "Could not update goal"
          | (some _, store) =>
            redirectSuccess st store "Goal updated successfully!" (utf16 "/goals/" ++ id)

/-- The handler of `POST /goals/:id/progress` (lines 290-329). -/
def goalProgressHandler (env : Env) (id : JsString) (currentValue : Field) (st : State) :
    Result :=
  match st.session.user with
  | none => redirectError st st.store "Could not update progress" (utf16 "/goals/" ++ id)
  | some user =>
    match env.select (.selectGoal id user.id)
        (fun db => db.goalsByIdAndUser env id user.id) st.store with
    | (none, store) =>
      redirectError st store "Could not update progress" (utf16 "/goals/" ++ id)
    | (some [], store) =>
      { state := { st with store := store }, response := .json 404 "Goal not found" }
    | (some (existing :: _), store) =>
      let status :=
        if existing.target_value.truthy &&
            env.parseFloatGe currentValue existing.target_value then
          SqlVal.text (utf16 "completed")
        else existing.status
      match env.query (.updateGoalProgress (.ofField currentValue) status id user.id)
          (fun db => db.updateGoalProgress env (.ofField currentValue) status id user.id)
          store with
      | (none, store) =>
        redirectError st store "Could not update progress" (utf16 "/goals/" ++ id)
      | (some _, store) =>
        redirectSuccess st store
          (if status == .text (utf16 "completed") then "Congratulations! Goal completed!"
           else "Progress updated!")
          (utf16 "/goals/" ++ id)

/-- The handler of `POST /goals/:id/delete` (lines 332-351). -/
def goalDeleteHandler (env : Env) (id : JsString) (st : State) : Result :=
  match st.session.user with
  | none => serverError st st.store "Could not delete goal"
  | some user =>
    match env.query (.deleteGoal id user.id)
        (fun db => db.deleteGoal env id user.id) st.store with
    | (none, store) => serverError st store "Could not delete goal"
    | (some affectedRows, store) =>
      if affectedRows == 0 then goalNotFound st store
      else redirectSuccess st store "Goal deleted successfully!" (utf16 "/goals")

/-- Rows of the goal list query: the goals of the user, with the given status
when one is given, in the order of the `ORDER BY` clause. -/
def Db.goalsByUser (env : Env) (db : Db) (userId : Nat) (status : Option JsString) :
    List GoalRow :=
  env.orderGoals
    (db.goals.filter (fun g =>
      g.user_id == userId &&
        match status, g.status with
        | none, _ => true
        | some s, .text t => env.sqlTextEq t s
        | some _, _ => false))

/-- The handler of `GET /goals` (lines 8-50); `status` is `req.query.status`. -/
def goalListHandler (env : Env) (status : Field) (st : State) : Result :=
  match st.session.user with
  | none =>
    { state := st, response := .render 200 (.goalsList "My Goals - Fitness Tracker" [] []) }
  | some user =>
    match env.select (.selectGoals user.id (if status.truthy then status else none))
        (fun db => db.goalsByUser env user.id (if status.truthy then status else none))
        st.store with
    | (none, store) =>
      { state := { st with store := store },
        response := .render 200 (.goalsList "My Goals - Fitness Tracker" [] []) }
    | (some goals, store) =>
      { state := { st with store := store },
        response := .render 200
          (.goalsList "My Goals - Fitness Tracker"
            (goals.map (fun goal => (goal, goalProgress env goal)))
            (status.getD [])) }

/-- The route `router.get("/", isAuthenticated, ...)` of the goals. -/
def getGoals (env : Env) (status : Field) : State → Result :=
  route isAuthenticated (goalListHandler env status)

/-- The route `router.get("/:id", isAuthenticated, ...)` of the goals. -/
def getGoal (env : Env) (id : JsString) : State → Result :=
  route isAuthenticated (goalViewHandler env id)

/-- The route `router.get("/:id/edit", isAuthenticated, ...)` of the goals. -/
def getGoalEdit (env : Env) (id : JsString) : State → Result :=
  route isAuthenticated (goalEditFormHandler env id)

/-- The route `router.post("/:id/edit", isAuthenticated, ...)` of the goals. -/
def postGoalEdit (env : Env) (id : JsString) (f : GoalFields) : State → Result :=
  route isAuthenticated (goalUpdateHandler env id f)

/-- The route `router.post("/:id/progress", isAuthenticated, ...)`. -/
def postGoalProgress (env : Env) (id : JsString) (currentValue : Field) : State → Result :=
  route isAuthenticated (goalProgressHandler env id currentValue)

/-- The route `router.post("/:id/delete", isAuthenticated, ...)` of the goals. -/
def postGoalDelete (env : Env) (id : JsString) : State → Result :=
  route isAuthenticated (goalDeleteHandler env id)

/-! ## Workout routes (src/routes/workouts.js) -/

/-- The response `res.status(404).render("404", ...)` of the workout routes. -/
def workoutNotFound (st : State) (store : Store) : Result :=
  { state := { st with store := store },
    response := .render 404 (.notFound "Workout Not Found") }

/-- The handler of `GET /workouts/:id` (lines 214-245). -/
def workoutViewHandler (env : Env) (id : JsString) (st : State) : Result :=
  match st.session.user with
  | none => serverError st st.store "Could not load workout"
  | some user =>
    match env.select (.selectWorkout id user.id)
        (fun db => db.workoutsByIdAndUser env id user.id) st.store with
    | (none, store) => serverError st store "Could not load workout"
    | (some [], store) => workoutNotFound st store
    | (some (workout :: _), store) =>
      match env.select (.selectWorkoutExercisesDetail id)
          (fun db => db.workoutExercisesDetail env id) store with
      | (none, store) => serverError st store "Could not load workout"
      | (some workoutExercises, store) =>
        { state := { st with store := store },
          response := .render 200
            (.workoutsDetail (workout.name.toJsString ++ utf16 " - Fitness Tracker") workout
              workoutExercises) }

/-- The three queries that fill the workout form (exercise list, categories,
entries of the workout), then the form rendered with the given workout and
errors; a rejected query ends in the `catch` block with the given message. -/
def workoutFormPage (env : Env) (id : JsString) (workout : WorkoutFormWorkout)
    (errors : List String) (message : String) (st : State) (store : Store) : Result :=
  match env.select .selectExerciseList (fun db => db.exerciseList env) store with
  | (none, store) => serverError st store message
  | (some exercises, store) =>
    match env.select .selectCategories (fun db => db.categories env) store with
    | (none, store) => serverError st store message
    | (some categories, store) =>
      match env.select (.selectWorkoutExercisesForm id)
          (fun db => db.workoutExercisesForm env id) store with
      | (none, store) => serverError st store message
      | (some workoutExercises, store) =>
        { state := { st with store := store },
          response := .render 200
            (.workoutsForm "Edit Workout - Fitness Tracker" workout exercises categories
              workoutExercises errors) }

/-- The handler of `GET /workouts/:id/edit` (lines 248-292). -/
def workoutEditFormHandler (env : Env) (id : JsString) (st : State) : Result :=
  match st.session.user with
  | none => serverError st st.store "Could not load workout"
  | some user =>
    match env.select (.selectWorkout id user.id)
        (fun db => db.workoutsByIdAndUser env id user.id) st.store with
    | (none, store) => serverError st store "Could not load workout"
    | (some [], store) => workoutNotFound st store
    | (some (workout :: _), store) =>
      workoutFormPage env id (.row workout) [] "Could not load workout" st store

/-- The parameters of the workout update, from the submitted fields. -/
def WorkoutFields.values (f : WorkoutFields) : WorkoutValues :=
  { name := f.name.toSql
    workout_date := .ofField f.workoutDate
    duration_minutes := .orNull f.durationMinutes
    total_calories := .orNull f.totalCalories
    notes := .orNull f.notes
    rating := .orNull f.rating }

/-- The handler of `POST /workouts/:id/edit` (lines 295-374), on a parsed
body. The test of the name (line 300) stands before the `try` block (line
304): when it raises, nothing catches the error and no statement has been
sent. -/
def workoutUpdateHandler (env : Env) (id : JsString) (f : WorkoutFields) (st : State) :
    Result :=
  let errors : List String := []
  match f.name.blank with
  | none => { state := st, response := .uncaught "TypeError: name.trim is not a function" }
  | some blank =>
    let errors := if blank then errors ++ ["Workout name is required"] else errors
    match st.session.user with
    | none => serverError st st.store "Could not update workout"
    | some user =>
      match env.select (.selectWorkout id user.id)
          (fun db => db.workoutsByIdAndUser env id user.id) st.store with
      | (none, store) => serverError st store "Could not update workout"
      | (some [], store) => workoutNotFound st store
      | (some (existing :: _), store) =>
        if errors.length > 0 then
          workoutFormPage env id (.merged existing f) errors "Could not update workout" st
            store
        else
          match env.query (.updateWorkout f.values id user.id)
              (fun db => db.updateWorkout env f.values id user.id) store with
          | (none, store) => serverError st store "Could not update workout"
          | (some _, store) =>
            redirectSuccess st store "Workout updated successfully!" (utf16 "./" ++ id)

/-- The handler of `POST /workouts/:id/delete` (lines 377-396). -/
def workoutDeleteHandler (env : Env) (id : JsString) (st : State) : Result :=
  match st.session.user with
  | none => serverError st st.store "Could not delete workout"
  | some user =>
    match env.query (.deleteWorkout id user.id)
        (fun db => db.deleteWorkout env id user.id) st.store with
    | (none, store) => serverError st store "Could not delete workout"
    | (some affectedRows, store) =>
      if affectedRows == 0 then workoutNotFound st store
      else redirectSuccess st store "Workout deleted successfully!" (utf16 "./")

/-- The parameters of the entry insert after the workout id, from the
submitted fields. -/
def EntryFields.values (f : EntryFields) : EntryValues :=
  { exercise_id := .ofField f.exerciseId
    sets := .orNull f.sets
    reps := .orNull f.reps
    weight_kg := .orNull f.weight
    duration_minutes := .orNull f.duration
    calories_burned := .orNull f.calories
    notes := .orNull f.notes }

/-- The handler of `POST /workouts/:id/exercises` (lines 399-436). -/
def workoutAddExerciseHandler (env : Env) (id : JsString) (f : EntryFields) (st : State) :
    Result :=
  match st.session.user with
  | none => redirectError st st.store "Could not add exercise" (utf16 "./" ++ id)
  | some user =>
    match env.select (.selectWorkout id user.id)
        (fun db => db.workoutsByIdAndUser env id user.id) st.store with
    | (none, store) => redirectError st store "Could not add exercise" (utf16 "./" ++ id)
    | (some [], store) =>
      { state := { st with store := store }, response := .json 404 "Workout not found" }
    | (some (_ :: _), store) =>
      match env.query (.insertWorkoutExercise id f.values)
          (fun db => db.insertWorkoutExercise env id f.values) store with
      | (none, store) => redirectError st store "Could not add exercise" (utf16 "./" ++ id)
      | (some _, store) =>
        redirectSuccess st store "Exercise added to workout!" (utf16 "./" ++ id)

/-- The handler of `POST /workouts/:id/exercises/:exerciseId/delete`
(lines 439-468). -/
def workoutRemoveExerciseHandler (env : Env) (id exerciseId : JsString) (st : State) :
    Result :=
  match st.session.user with
  | none => redirectError st st.store "Could not remove exercise" (utf16 "./" ++ id)
  | some user =>
    match env.select (.selectOwnedWorkoutExercise exerciseId user.id)
        (fun db => db.ownedWorkoutExercises env exerciseId user.id) st.store with
    | (none, store) => redirectError st store "Could not remove exercise" (utf16 "./" ++ id)
    | (some [], store) =>
      { state := { st with store := store }, response := .json 404 "Exercise not found" }
    | (some (_ :: _), store) =>
      match env.query (.deleteWorkoutExercise exerciseId)
          (fun db => db.deleteWorkoutExercise env exerciseId) store with
      | (none, store) =>
        redirectError st store "Could not remove exercise" (utf16 "./" ++ id)
      | (some _, store) =>
        redirectSuccess st store "Exercise removed from workout!" (utf16 "./" ++ id)

/-- The route `router.get("/:id", isAuthenticated, ...)` of the workouts. -/
def getWorkout (env : Env) (id : JsString) : State → Result :=
  route isAuthenticated (workoutViewHandler env id)

/-- The route `router.get("/:id/edit", isAuthenticated, ...)` of the workouts. -/
def getWorkoutEdit (env : Env) (id : JsString) : State → Result :=
  route isAuthenticated (workoutEditFormHandler env id)

/-- The route `router.post("/:id/edit", isAuthenticated, ...)` of the workouts. -/
def postWorkoutEdit (env : Env) (id : JsString) (f : WorkoutFields) : State → Result :=
  route isAuthenticated (workoutUpdateHandler env id f)

/-- The route `router.post("/:id/delete", isAuthenticated, ...)` of the workouts. -/
def postWorkoutDelete (env : Env) (id : JsString) : State → Result :=
  route isAuthenticated (workoutDeleteHandler env id)

/-- The route `router.post("/:id/exercises", isAuthenticated, ...)`. -/
def postWorkoutExercise (env : Env) (id : JsString) (f : EntryFields) : State → Result :=
  route isAuthenticated (workoutAddExerciseHandler env id f)

/-- The route `router.post("/:id/exercises/:exerciseId/delete", isAuthenticated, ...)`. -/
def postWorkoutExerciseDelete (env : Env) (id exerciseId : JsString) : State → Result :=
  route isAuthenticated (workoutRemoveExerciseHandler env id exerciseId)

/-! ## Ownership of the row a parameter designates -/

/-- The parameter `id` designates no goal of the user `uid`. -/
def noGoalOf (env : Env) (db : Db) (id : JsString) (uid : Nat) : Prop :=
  ∀ g ∈ db.goals, env.sqlKey id = some g.id → g.user_id ≠ uid

/-- The parameter `id` designates no workout of the user `uid`. -/
def noWorkoutOf (env : Env) (db : Db) (id : JsString) (uid : Nat) : Prop :=
  ∀ w ∈ db.workouts, env.sqlKey id = some w.id → w.user_id ≠ uid

/-- The parameter `exerciseId` designates no entry of a workout of the user
`uid`. -/
def noEntryOf (env : Env) (db : Db) (exerciseId : JsString) (uid : Nat) : Prop :=
  ∀ e ∈ db.workout_exercises, env.sqlKey exerciseId = some e.id →
    ∀ w ∈ db.workouts, w.id = e.workout_id → w.user_id ≠ uid

/-! ## The session options (src/index.js) -/

/-- The `cookie` options of the session middleware. -/
structure CookieOptions where
  secure : Bool
  maxAge : Nat
  deriving DecidableEq, Repr

/-- The options given to `session(...)`, the secret apart. -/
structure SessionOptions where
  resave : Bool
  saveUninitialized : Bool
  cookie : CookieOptions
  deriving DecidableEq, Repr

/-- The options of `src/index.js` lines 27-35; `maxAge` is in milliseconds. -/
def sessionOptions : SessionOptions :=
  { resave := false
    saveUninitialized := false
    cookie := { secure := false, maxAge := 24 * 60 * 60 * 1000 } }

/-! ## JavaScript numbers

The goal routes compute with JavaScript numbers, which are binary64. A finite
number is kept as a fraction, and each operation rounds its exact result to
the nearest binary64 number. The sign of zero, and the subnormal and overflow
ranges of binary64, are not modelled. -/

/-- A rational number `num / den` with `den > 0`, not reduced. -/
structure Frac where
  num : Int
  den : Nat
  deriving DecidableEq, Repr

/-- The integer nearest to `n / d`, a tie going to the even one (`d > 0`). -/
def roundHalfEven (n : Int) (d : Nat) : Int :=
  if 2 * (n % d) < d then n / d
  else if (d : Int) < 2 * (n % d) then n / d + 1
  else if (n / d) % 2 = 0 then n / d else n / d + 1

/-- The number of halvings that bring `n` below 2, at most `fuel` of them. -/
def halvings : Nat → Nat → Nat
  | 0, _ => 0
  | fuel + 1, n => if n < 2 then 0 else halvings fuel (n / 2) + 1

/-- The integer part of the binary logarithm of `n > 0`. -/
def floorLog2 (n : Nat) : Nat :=
  halvings n n

/-- The exponent `e` with `2 ^ e ≤ n / d < 2 ^ (e + 1)`, for `n, d > 0`. -/
def binaryExponent (n d : Nat) : Int :=
  if floorLog2 d ≤ floorLog2 n then
    if n < d * 2 ^ (floorLog2 n - floorLog2 d) then
      ((floorLog2 n - floorLog2 d : Nat) : Int) - 1
    else ((floorLog2 n - floorLog2 d : Nat) : Int)
  else
    if n * 2 ^ (floorLog2 d - floorLog2 n) < d then
      -((floorLog2 d - floorLog2 n : Nat) : Int) - 1
    else -((floorLog2 d - floorLog2 n : Nat) : Int)

/-- The binary64 number nearest to `x`: 53 significant bits, round to nearest,
ties to even. -/
def toDouble (x : Frac) : Frac :=
  if x.num = 0 then ⟨0, 1⟩
  else
    match binaryExponent x.num.natAbs x.den - 52 with
    | .ofNat e => ⟨roundHalfEven x.num (x.den * 2 ^ e) * 2 ^ e, 1⟩
    | .negSucc e => ⟨roundHalfEven (x.num * 2 ^ (e + 1)) x.den, 2 ^ (e + 1)⟩

/-- A JavaScript number. -/
inductive JsNumber where
  | nan
  | finite (x : Frac)
  | infinity (negative : Bool)
  deriving DecidableEq, Repr

/-- The operator `a >= b`. -/
def JsNumber.ge : JsNumber → JsNumber → Bool
  | .nan, _ => false
  | _, .nan => false
  | .finite a, .finite b => decide (b.num * a.den ≤ a.num * b.den)
  | .finite _, .infinity negative => negative
  | .infinity negative, .finite _ => !negative
  | .infinity a, .infinity b => !a || b

/-- The operator `a > 0`. -/
def JsNumber.gtZero : JsNumber → Bool
  | .nan => false
  | .finite a => decide (0 < a.num)
  | .infinity negative => !negative

/-- The operator `a / b`. -/
def JsNumber.div : JsNumber → JsNumber → JsNumber
  | .finite a, .finite b =>
    if b.num = 0 then
      if a.num = 0 then .nan else .infinity (decide (a.num < 0))
    else .finite (toDouble ⟨a.num * b.den * b.num.sign, a.den * b.num.natAbs⟩)
  | .finite _, .infinity _ => .finite ⟨0, 1⟩
  | .infinity negative, .finite b => .infinity (negative != decide (b.num < 0))
  | _, _ => .nan

/-- The operator `a * b`. -/
def JsNumber.mul : JsNumber → JsNumber → JsNumber
  | .finite a, .finite b => .finite (toDouble ⟨a.num * b.num, a.den * b.den⟩)
  | .finite a, .infinity negative =>
    if a.num = 0 then .nan else .infinity (negative != decide (a.num < 0))
  | .infinity negative, .finite b =>
    if b.num = 0 then .nan else .infinity (negative != decide (b.num < 0))
  | .infinity a, .infinity b => .infinity (a != b)
  | _, _ => .nan

/-- The function `Math.round` on a finite number: the nearest integer, a tie
going up. -/
def mathRound (x : Frac) : Int :=
  (2 * x.num + x.den) / (2 * x.den)

/-- Whether the code unit is a decimal digit. -/
def isDigit (c : Nat) : Bool :=
  decide (48 ≤ c) && decide (c ≤ 57)

/-- The number written by decimal digits. -/
def digitsValue (ds : List Nat) : Nat :=
  ds.foldl (fun n c => 10 * n + (c - 48)) 0

/-- The fraction `x * 10 ^ e`. -/
def Frac.scale10 (x : Frac) : Int → Frac
  | .ofNat e => ⟨x.num * 10 ^ e, x.den⟩
  | .negSucc e => ⟨x.num, x.den * 10 ^ (e + 1)⟩

/-- An exponent part `e`, `e+` or `e-` with digits at the start of `s`: its
value and what follows. -/
def exponentPart (s : JsString) : Option (Int × JsString) :=
  match s with
  | c :: t =>
    if c == 101 || c == 69 then
      match t with
      | 43 :: r =>
        if (r.takeWhile isDigit).isEmpty then none
        else some ((digitsValue (r.takeWhile isDigit) : Int), r.dropWhile isDigit)
      | 45 :: r =>
        if (r.takeWhile isDigit).isEmpty then none
        else some (-(digitsValue (r.takeWhile isDigit) : Int), r.dropWhile isDigit)
      | _ =>
        if (t.takeWhile isDigit).isEmpty then none
        else some ((digitsValue (t.takeWhile isDigit) : Int), t.dropWhile isDigit)
    else none
  | [] => none

/-- The digits after a decimal point at the start of `s`, and what follows
them; nothing is read when there is no point, or when a point has no digit on
either side (`intEmpty` says there is none before it). -/
def fractionPart (intEmpty : Bool) (s : JsString) : List Nat × JsString :=
  match s with
  | 46 :: t =>
    if intEmpty && (t.takeWhile isDigit).isEmpty then ([], s)
    else (t.takeWhile isDigit, t.dropWhile isDigit)
  | _ => ([], s)

/-- The longest unsigned decimal literal at the start of `s` (digits, an
optional fraction, an optional exponent): its exact value and what follows. -/
def unsignedDecimal (s : JsString) : Option (Frac × JsString) :=
  let intPart := s.takeWhile isDigit
  let frac := fractionPart intPart.isEmpty (s.dropWhile isDigit)
  if intPart.isEmpty && frac.1.isEmpty then none
  else
    match exponentPart frac.2 with
    | some (e, rest) =>
      some ((⟨digitsValue (intPart ++ frac.1), 10 ^ frac.1.length⟩ : Frac).scale10 e, rest)
    | none => some (⟨digitsValue (intPart ++ frac.1), 10 ^ frac.1.length⟩, frac.2)

/-- A sign at the start of `s`: whether it is `-`, and what follows. -/
def signPart (s : JsString) : Bool × JsString :=
  match s with
  | 43 :: r => (false, r)
  | 45 :: r => (true, r)
  | _ => (false, s)

/-- The function `parseFloat` on a string: the number written by the longest
decimal literal after leading white space, `NaN` when there is none. -/
def parseFloatString (s : JsString) : JsNumber :=
  let signed := signPart (s.dropWhile isJsWhitespace)
  if signed.2.take 8 == utf16 "Infinity" then .infinity signed.1
  else
    match unsignedDecimal signed.2 with
    | none => .nan
    | some (x, _) => .finite (toDouble ⟨if signed.1 then -x.num else x.num, x.den⟩)

/-- The function `parseFloat` on a request value; `undefined` gives `NaN`. -/
def parseFloatField : Field → JsNumber
  | none => .nan
  | some s => parseFloatString s

/-- The function `parseFloat` on a value read from the database. -/
def parseFloatCell : SqlVal → JsNumber
  | .null => .nan
  | .text s => parseFloatString s
  | .int n => .finite (toDouble ⟨n, 1⟩)

/-- The number that a value read from the database is in arithmetic and in
comparisons: `null` is 0, a text is the number it writes as a whole (0 when
blank). Texts in hexadecimal, octal or binary form, which a numeric column
does not return, are taken as `NaN`. -/
def cellNumber : SqlVal → JsNumber
  | .null => .finite ⟨0, 1⟩
  | .int n => .finite (toDouble ⟨n, 1⟩)
  | .text s =>
    if (jsTrim s).isEmpty then .finite ⟨0, 1⟩
    else if (signPart (jsTrim s)).2 == utf16 "Infinity" then
      .infinity (signPart (jsTrim s)).1
    else
      match unsignedDecimal (signPart (jsTrim s)).2 with
      | some (x, []) =>
        .finite (toDouble ⟨if (signPart (jsTrim s)).1 then -x.num else x.num, x.den⟩)
      | _ => .nan

/-- The number `Math.round((current / target) * 100)`; 0 stands for a result
that is not finite. -/
def roundPercentOf (current target : SqlVal) : Int :=
  match ((cellNumber current).div (cellNumber target)).mul (.finite ⟨100, 1⟩) with
  | .finite x => mathRound x
  | _ => 0

/-! ## A sample environment and database

Concrete data on which the statements below are exercised. -/

/-- A key parameter read as a decimal number. -/
def decimalKey (s : JsString) : Option Nat :=
  if s.isEmpty || s.any (fun c => decide (c < 48) || decide (57 < c)) then none
  else some (s.foldl (fun n c => 10 * n + (c - 48)) 0)

/-- An environment without storage faults, with exact text comparison and a
toy hash. -/
def sampleEnv : Env :=
  { BASE_PATH := none
    sqlTextEq := fun a b => a == b
    sqlKey := decimalKey
    queryFails := fun _ => false
    bcryptCompare := fun password hash => some (hash == utf16 "hash:" ++ password)
    bcryptHash := fun password _ => some (utf16 "hash:" ++ password)
    orderExerciseList := fun rows => rows
    orderCategories := fun rows => rows
    gtZero := fun v =>
      match v with
      | .int n => decide (0 < n)
      | _ => false
    roundPercent := fun c t =>
      match c, t with
      | .int c, .int t => (200 * c + t) / (2 * t)
      | _, _ => 0
    parseFloatGe := fun _ _ => false
    daysRemaining := fun _ => 0
    cascadeWorkoutExercises := true
    orderGoals := fun rows => rows }

/-- The sample environment with the arithmetic of JavaScript numbers. -/
def jsEnv : Env :=
  { sampleEnv with
    gtZero := fun v => (cellNumber v).gtZero
    roundPercent := roundPercentOf
    parseFloatGe := fun a b => (parseFloatField a).ge (parseFloatCell b) }

/-- The user alice, whose password is `Abcdef1!`. -/
def alice : UserRow :=
  { id := 1, username := utf16 "alice", email := utf16 "alice@x.com",
    password_hash := utf16 "hash:Abcdef1!" }

/-- The user bob. -/
def bob : UserRow :=
  { id := 2, username := utf16 "bob", email := utf16 "bob@x.com",
    password_hash := utf16 "hash:Secret12#" }

/-- A goal of alice. -/
def aliceGoal : GoalRow :=
  { id := 7, user_id := 1, title := .text (utf16 "Run"), description := .null,
    goal_type := .text (utf16 "distance"), target_value := .int 10, current_value := .int 4,
    unit := .text (utf16 "km"), start_date := .text (utf16 "2024-01-01"),
    target_date := .null, status := .text (utf16 "active") }

/-- A workout of alice. -/
def aliceWorkout : WorkoutRow :=
  { id := 3, user_id := 1, name := .text (utf16 "Legs"),
    workout_date := .text (utf16 "2024-01-02"), duration_minutes := .int 45,
    total_calories := .null, notes := .null, rating := .null }

/-- An entry of the workout of alice. -/
def aliceEntry : WorkoutExerciseRow :=
  { id := 5, workout_id := 3, exercise_id := .int 1, sets := .int 3, reps := .int 10,
    weight_kg := .null, duration_minutes := .null, calories_burned := .null, notes := .null }

/-- A database with the two users and the rows of alice. -/
def sampleDb : Db :=
  { users := [alice, bob]
    user_profiles := []
    goals := [aliceGoal]
    workouts := [aliceWorkout]
    workout_exercises := [aliceEntry]
    exercises := [{ id := 1, name := .text (utf16 "Squat"), muscle_group := .null,
                    category_id := .null }]
    exercise_categories := []
    nextUserId := 3
    nextWorkoutExerciseId := 6 }

/-- A request without a session user. -/
def anonymousState : State :=
  { session := { user := none, success := none, error := none },
    store := { db := sampleDb, log := [] } }

/-- The session user of bob. -/
def bobUser : SessionUser :=
  { id := 2, username := utf16 "bob", email := utf16 "bob@x.com", profile := .null }

/-- A request of bob, logged in. -/
def bobState : State :=
  { session := { user := some bobUser, success := none, error := none },
    store := { db := sampleDb, log := [] } }

/-- An empty goal form. -/
def noGoalFields : GoalFields :=
  { title := .field none, description := none, goalType := none, targetValue := none,
    currentValue := none, unit := none, startDate := none, targetDate := none,
    status := none }

/-- An empty workout form. -/
def noWorkoutFields : WorkoutFields :=
  { name := .field none, workoutDate := none, durationMinutes := none, totalCalories := none,
    notes := none, rating := none }

/-- A goal form of which the title was sent twice, `title=a&title=b`: the
parser gives the array of the two. -/
def arrayTitleFields : GoalFields :=
  { noGoalFields with title := .other true }

/-- A workout form of which the name was sent twice, `name=a&name=b`: the
parser gives the array of the two. -/
def arrayNameFields : WorkoutFields :=
  { noWorkoutFields with name := .other true }

/-- An empty entry form. -/
def noEntryFields : EntryFields :=
  { exerciseId := none, sets := none, reps := none, weight := none, duration := none,
    calories := none, notes := none }

/-- The registration of alice of the scenario. -/
def aliceForm : RegisterForm :=
  { username := some (utf16 "alice"), email := some (utf16 "alice@x.com"),
    password := some (utf16 "Abcdef1!"), confirmPassword := some (utf16 "Abcdef1!"),
    firstName := some (utf16 "Alice"), lastName := none }

/-- The registration of alice without the password field. -/
def aliceFormNoPassword : RegisterForm :=
  { aliceForm with password := none }

/-- A request without a session user, on a database where only bob is a user. -/
def bobOnlyState : State :=
  { session := newSession,
    store := { db := { sampleDb with users := [bob] }, log := [] } }

/-- A request without a session user, on a database whose first user has the
email of the scenario and whose second user has its username. -/
def clashState : State :=
  { session := newSession,
    store :=
      { db :=
          { sampleDb with
            users :=
              [{ id := 1, username := utf16 "bob", email := utf16 "alice@x.com",
                 password_hash := utf16 "hash:Secret12#" },
               { id := 2, username := utf16 "alice", email := utf16 "other@x.com",
                 password_hash := utf16 "hash:Abcdef1!" }] },
        log := [] } }

/-- The errors list of a registration as the specification words it: the
username message if the username is not a string of at least 3 code units, the
email message if the email is not a string containing "@", the violations of
the password policy, and the mismatch message if the confirmation is not the
password, in this order. -/
def collectedErrors (username email confirmPassword : Field) (password : JsString) :
    List String :=
  (if username.any (fun u => decide (3 ≤ u.length)) then [] else [msgUsername]) ++
  (if email.any (fun e => decide ('@'.toNat ∈ e)) then [] else [msgEmail]) ++
  (validatePassword password).errors ++
  (if confirmPassword = some password then [] else [msgMismatch])

/-- A registration with a short username, an email without "@", the password
`a` and another confirmation. -/
def badForm : RegisterForm :=
  { username := some (utf16 "al"), email := some (utf16 "al.x.com"),
    password := some (utf16 "a"), confirmPassword := some (utf16 "b"),
    firstName := some (utf16 "Al"), lastName := none }

/-- The status that the progress route writes for the goal `g` and the
submitted value (lines 304-310). -/
def progressStatus (env : Env) (g : GoalRow) (currentValue : Field) : SqlVal :=
  if g.target_value.truthy && env.parseFloatGe currentValue g.target_value then
    .text (utf16 "completed")
  else g.status

/-- The percentage as the specification writes it, for integers `c` and
`t > 0`: `min(100, round(100 * c / t))`, the quotient being exact and rounded
to the nearest integer (57.5 to 58). -/
def claimedProgress (c t : Int) : Int :=
  min 100 ((2 * (100 * c) + t) / (2 * t))

/-- The session user of alice. -/
def aliceUser : SessionUser :=
  { id := 1, username := utf16 "alice", email := utf16 "alice@x.com", profile := .null }

/-- A goal of alice with the target 0, as a decimal column gives it. -/
def zeroGoal : GoalRow :=
  { aliceGoal with
    id := 9, target_value := .text (utf16 "0.00"), current_value := .text (utf16 "0.00") }

/-- A goal of alice at 23 of 40. -/
def partGoal : GoalRow :=
  { aliceGoal with id := 8, target_value := .int 40, current_value := .int 23 }

/-- A request of alice, logged in, who has three goals. -/
def aliceState : State :=
  { session := { user := some aliceUser, success := none, error := none },
    store := { db := { sampleDb with goals := [aliceGoal, partGoal, zeroGoal] }, log := [] } }

/-- A request without a session user, on the sample database with a profile
row of bob and two profile rows of alice. -/
def profileState : State :=
  { session := newSession,
    store :=
      { db :=
          { sampleDb with
            user_profiles :=
              [{ user_id := 2, first_name := .text (utf16 "Bob"), last_name := .null },
               { user_id := 1, first_name := .text (utf16 "Alice"),
                 last_name := .text (utf16 "Liddell") },
               { user_id := 1, first_name := .text (utf16 "Al"), last_name := .null }] },
        log := [] } }

/-! ## Properties of `validatePassword` -/

theorem classTest_iff (items : List ClassItem) (s : JsString) :
    classTest items s = true ↔ ∃ c ∈ s, ∃ i ∈ items, i.accepts c = true := by
  simp [classTest, List.any_eq_true]

theorem lowerClass_iff (s : JsString) :
    classTest lowerClass s = true ↔ ∃ c ∈ s, 'a'.toNat ≤ c ∧ c ≤ 'z'.toNat := by
  simp [classTest_iff, lowerClass, ClassItem.accepts]

theorem upperClass_iff (s : JsString) :
    classTest upperClass s = true ↔ ∃ c ∈ s, 'A'.toNat ≤ c ∧ c ≤ 'Z'.toNat := by
  simp [classTest_iff, upperClass, ClassItem.accepts]

theorem digitClass_iff (s : JsString) :
    classTest digitClass s = true ↔ ∃ c ∈ s, '0'.toNat ≤ c ∧ c ≤ '9'.toNat := by
  simp [classTest_iff, digitClass, ClassItem.accepts]

theorem specSymbols_eq :
    specSymbols = [33, 64, 35, 36, 37, 94, 38, 42, 40, 41, 95, 43, 45, 61, 91, 93, 123, 125,
      59, 39, 58, 34, 92, 124, 44, 46, 60, 62, 47, 63] := by
  decide

theorem specialClass_iff (s : JsString) :
    classTest specialClass s = true ↔ ∃ c ∈ s, c ∈ specSymbols := by
  simp [classTest_iff, specialClass, ClassItem.accepts, specSymbols_eq]

/-- The errors of `validatePassword`, rule by rule. -/
theorem validatePassword_errors (p : JsString) :
    (validatePassword p).errors =
      (if p.length < 8 then [msgLength] else []) ++
      (if classTest lowerClass p = true then [] else [msgLower]) ++
      (if classTest upperClass p = true then [] else [msgUpper]) ++
      (if classTest digitClass p = true then [] else [msgDigit]) ++
      (if classTest specialClass p = true then [] else [msgSpecial]) := by
  unfold validatePassword
  by_cases h0 : p.length < 8 <;> by_cases h1 : classTest lowerClass p = true <;>
    by_cases h2 : classTest upperClass p = true <;>
    by_cases h3 : classTest digitClass p = true <;>
    by_cases h4 : classTest specialClass p = true <;> simp [h0, h1, h2, h3, h4]

theorem validatePassword_isValid (p : JsString) :
    (validatePassword p).isValid = true ↔ (validatePassword p).errors = [] := by
  simp [validatePassword, List.length_eq_zero]

/-- C1: `validatePassword(p).isValid` is true exactly when `p` has at least 8
code units and contains a lowercase letter, an uppercase letter, a digit and
a character of the symbol set of the specification; and `isValid` is true
exactly when `errors` is empty. -/
theorem validatePassword_isValid_iff (p : JsString) :
    ((validatePassword p).isValid = true ↔
      (8 ≤ p.length ∧ (∃ c ∈ p, 'a'.toNat ≤ c ∧ c ≤ 'z'.toNat) ∧
        (∃ c ∈ p, 'A'.toNat ≤ c ∧ c ≤ 'Z'.toNat) ∧
        (∃ c ∈ p, '0'.toNat ≤ c ∧ c ≤ '9'.toNat) ∧
        (∃ c ∈ p, c ∈ specSymbols))) ∧
    ((validatePassword p).isValid = true ↔ (validatePassword p).errors = []) := by
  refine ⟨?_, validatePassword_isValid p⟩
  rw [validatePassword_isValid, validatePassword_errors, ← lowerClass_iff, ← upperClass_iff,
    ← digitClass_iff, ← specialClass_iff]
  by_cases h0 : p.length < 8 <;> by_cases h1 : classTest lowerClass p = true <;>
    by_cases h2 : classTest upperClass p = true <;>
    by_cases h3 : classTest digitClass p = true <;>
    by_cases h4 : classTest specialClass p = true <;> simp [h0, h1, h2, h3, h4]
  all_goals omega

/-- C2: the length message is among the errors of `validatePassword(p)` when
`p` has fewer than 8 code units, and is not among them when `p` has 8 or more. -/
theorem validatePassword_length_rule (p : JsString) :
    (msgLength ∈ (validatePassword p).errors ↔ p.length < 8) ∧
    (msgLength ∉ (validatePassword p).errors ↔ 8 ≤ p.length) := by
  have key : msgLength ∈ (validatePassword p).errors ↔ p.length < 8 := by
    rw [validatePassword_errors]
    by_cases h0 : p.length < 8 <;> by_cases h1 : classTest lowerClass p = true <;>
      by_cases h2 : classTest upperClass p = true <;>
      by_cases h3 : classTest digitClass p = true <;>
      by_cases h4 : classTest specialClass p = true <;>
      simp [h0, h1, h2, h3, h4, msgLength, msgLower, msgUpper, msgDigit, msgSpecial]
  exact ⟨key, by rw [key]; omega⟩

/-- C3: for each of the four character classes, the class message is among
the errors of `validatePassword(p)` exactly when `p` has no character of that
class, whatever the other rules give; the errors are the concatenation of what
each rule contributes on its own. -/
theorem validatePassword_class_rules (p : JsString) :
    (msgLower ∈ (validatePassword p).errors ↔ ¬ ∃ c ∈ p, 'a'.toNat ≤ c ∧ c ≤ 'z'.toNat) ∧
    (msgUpper ∈ (validatePassword p).errors ↔ ¬ ∃ c ∈ p, 'A'.toNat ≤ c ∧ c ≤ 'Z'.toNat) ∧
    (msgDigit ∈ (validatePassword p).errors ↔ ¬ ∃ c ∈ p, '0'.toNat ≤ c ∧ c ≤ '9'.toNat) ∧
    (msgSpecial ∈ (validatePassword p).errors ↔ ¬ ∃ c ∈ p, c ∈ specSymbols) ∧
    (validatePassword p).errors =
      (if p.length < 8 then [msgLength] else []) ++
      (if ∃ c ∈ p, 'a'.toNat ≤ c ∧ c ≤ 'z'.toNat then [] else [msgLower]) ++
      (if ∃ c ∈ p, 'A'.toNat ≤ c ∧ c ≤ 'Z'.toNat then [] else [msgUpper]) ++
      (if ∃ c ∈ p, '0'.toNat ≤ c ∧ c ≤ '9'.toNat then [] else [msgDigit]) ++
      (if ∃ c ∈ p, c ∈ specSymbols then [] else [msgSpecial]) := by
  simp only [← lowerClass_iff, ← upperClass_iff, ← digitClass_iff, ← specialClass_iff]
  rw [validatePassword_errors]
  by_cases h0 : p.length < 8 <;> by_cases h1 : classTest lowerClass p = true <;>
    by_cases h2 : classTest upperClass p = true <;>
    by_cases h3 : classTest digitClass p = true <;>
    by_cases h4 : classTest specialClass p = true <;>
    simp [h0, h1, h2, h3, h4, msgLength, msgLower, msgUpper, msgDigit, msgSpecial]

/-- C4: `validatePassword("a")` is invalid with exactly four errors: the
length, uppercase, digit and special-character messages, and not the
lowercase message. -/
theorem validatePassword_a :
    validatePassword (utf16 "a") =
      { isValid := false, errors := [msgLength, msgUpper, msgDigit, msgSpecial] } ∧
    (validatePassword (utf16 "a")).errors.length = 4 ∧
    msgLower ∉ (validatePassword (utf16 "a")).errors := by
  decide

/-! ## Login: the two failures look the same -/

theorem usersByUsername_eq_nil (env : Env) (db : Db) (u : JsString)
    (h : ∀ r ∈ db.users, env.sqlTextEq r.username u = false) :
    db.usersByUsername env u = [] := by
  simp only [Db.usersByUsername, List.filter_eq_nil_iff]
  intro r hr
  simp [h r hr]

theorem usersByUsername_head (env : Env) (db : Db) (u : JsString) (user : UserRow)
    (rest : List UserRow) (h : db.usersByUsername env u = user :: rest) :
    user ∈ db.users ∧ env.sqlTextEq user.username u = true := by
  have hm : user ∈ db.usersByUsername env u := by rw [h]; exact List.mem_cons_self _ _
  simpa [Db.usersByUsername, List.mem_filter] using hm

/-- Login with a username that no row of `users` has. -/
theorem loginFields_unknown (env : Env) (st : State) (u p : JsString)
    (hu : u ≠ []) (hp : p ≠ []) (hq : env.queryFails st.store.log.length = false)
    (hnone : ∀ r ∈ st.store.db.users, env.sqlTextEq r.username u = false) :
    loginFields env ⟨some u, some p⟩ st =
      loginFailure st { st.store with log := st.store.log ++ [.selectUserByUsername u] }
        msgInvalidCredentials := by
  simp [loginFields, hu, hp, Env.select, Env.query, hq, usersByUsername_eq_nil env _ u hnone]

/-- Login with a username that exists and a password that its hash refuses. -/
theorem loginFields_wrong_password (env : Env) (st : State) (u p : JsString)
    (hu : u ≠ []) (hp : p ≠ []) (hq : env.queryFails st.store.log.length = false)
    (hsome : ∃ r ∈ st.store.db.users, env.sqlTextEq r.username u = true)
    (hbad : ∀ r ∈ st.store.db.users, env.sqlTextEq r.username u = true →
      env.bcryptCompare p r.password_hash = some false) :
    loginFields env ⟨some u, some p⟩ st =
      loginFailure st { st.store with log := st.store.log ++ [.selectUserByUsername u] }
        msgInvalidCredentials := by
  obtain ⟨r, hr, hru⟩ := hsome
  have hmem : r ∈ st.store.db.usersByUsername env u := by
    simp [Db.usersByUsername, List.mem_filter, hr, hru]
  cases hl : st.store.db.usersByUsername env u with
  | nil => rw [hl] at hmem; cases hmem
  | cons user rest =>
    obtain ⟨h1, h2⟩ := usersByUsername_head env _ u user rest hl
    simp [loginFields, hu, hp, Env.select, Env.query, hq, hl, hbad user h1 h2]

/-- C5: a login with a username that does not exist and a login with an
existing username and a password that fails verification against the stored
hash give the same response, the login view with the single error
"Invalid username or password", and neither establishes a session user. -/
theorem login_failures_identical (env : Env) (st1 st2 : State) (u1 p1 u2 p2 : JsString)
    (hs1 : st1.session.user = none) (hs2 : st2.session.user = none)
    (hu1 : u1 ≠ []) (hp1 : p1 ≠ []) (hu2 : u2 ≠ []) (hp2 : p2 ≠ [])
    (hq1 : env.queryFails st1.store.log.length = false)
    (hq2 : env.queryFails st2.store.log.length = false)
    (hnone : ∀ r ∈ st1.store.db.users, env.sqlTextEq r.username u1 = false)
    (hsome : ∃ r ∈ st2.store.db.users, env.sqlTextEq r.username u2 = true)
    (hbad : ∀ r ∈ st2.store.db.users, env.sqlTextEq r.username u2 = true →
      env.bcryptCompare p2 r.password_hash = some false) :
    (postLogin env ⟨some u1, some p1⟩ st1).response =
      (postLogin env ⟨some u2, some p2⟩ st2).response ∧
    (postLogin env ⟨some u1, some p1⟩ st1).response =
      .render 200 (.authLogin loginTitle [msgInvalidCredentials]) ∧
    (postLogin env ⟨some u1, some p1⟩ st1).state.session.user = none ∧
    (postLogin env ⟨some u2, some p2⟩ st2).state.session.user = none := by
  have e1 := loginFields_unknown env st1 u1 p1 hu1 hp1 hq1 hnone
  have e2 := loginFields_wrong_password env st2 u2 p2 hu2 hp2 hq2 hsome hbad
  simp [postLogin, postLoginRequest, loginHandler, route, isNotAuthenticated, hs1, hs2, e1, e2,
    loginFailure]

/-! ## The guard `isAuthenticated` -/

/-- C6: `isAuthenticated` calls `next()` exactly when the session holds a
user; a route behind it runs its handler then, and otherwise answers with the
redirect to `/auth/login` after setting the session error, whatever the
handler is, and with the store untouched. -/
theorem isAuthenticated_guard (handler : State → Result) (st : State) :
    (isAuthenticated st.session = .next ↔ st.session.user.isSome = true) ∧
    route isAuthenticated handler st =
      (if st.session.user.isSome = true then handler st
       else
        { state :=
            { session :=
                { st.session with error := some (utf16 "Please log in to access this page") }
              store := st.store }
          response := .redirect (utf16 "/auth/login") }) := by
  unfold route isAuthenticated
  cases h : st.session.user <;> simp [h]

/-! ## Goals of another user -/

/-- In a table whose keys are all different, two rows with the same key are
the same row. -/
theorem row_eq_of_keys_nodup {α : Type} (key : α → Nat) (rows : List α)
    (h : (rows.map key).Nodup) {a b : α} (ha : a ∈ rows) (hb : b ∈ rows)
    (hab : key a = key b) : a = b :=
  List.inj_on_of_nodup_map h ha hb hab

theorem noGoalOf_of_other (env : Env) (db : Db) (id : JsString) (uid : Nat) (g : GoalRow)
    (hg : g ∈ db.goals) (hne : g.user_id ≠ uid)
    (hkeys : (db.goals.map (fun r => r.id)).Nodup) (hid : env.sqlKey id = some g.id) :
    noGoalOf env db id uid := by
  intro g' hg' hk
  have hsame : g' = g := by
    apply row_eq_of_keys_nodup (fun r : GoalRow => r.id) db.goals hkeys hg' hg
    have := hk.symm.trans hid
    simpa using this
  rw [hsame]; exact hne

theorem noGoalOf_of_unmatched (env : Env) (db : Db) (id : JsString) (uid : Nat)
    (h : ∀ g ∈ db.goals, env.sqlKey id ≠ some g.id) : noGoalOf env db id uid :=
  fun g hg hk => absurd hk (h g hg)

theorem goalsByIdAndUser_eq_nil (env : Env) (db : Db) (id : JsString) (uid : Nat)
    (h : noGoalOf env db id uid) : db.goalsByIdAndUser env id uid = [] := by
  simp only [Db.goalsByIdAndUser, List.filter_eq_nil_iff]
  intro g hg
  have := h g hg
  simp only [ownedMatch, Bool.and_eq_true, beq_iff_eq, not_and]
  exact this

theorem deleteGoal_none (env : Env) (db : Db) (id : JsString) (uid : Nat)
    (h : noGoalOf env db id uid) : db.deleteGoal env id uid = (0, db) := by
  have hnil := goalsByIdAndUser_eq_nil env db id uid h
  have hall : db.goals.filter (fun g => !ownedMatch env id uid g.id g.user_id) = db.goals := by
    rw [List.filter_eq_self]
    intro g hg
    have := h g hg
    simp only [ownedMatch, Bool.not_eq_true', Bool.and_eq_false_iff, beq_eq_false_iff_ne, ne_eq]
    by_cases hk : env.sqlKey id = some g.id
    · exact Or.inr (this hk)
    · exact Or.inl hk
  simp only [Db.goalsByIdAndUser] at hnil
  simp [Db.deleteGoal, hnil, hall]

theorem getGoal_none (env : Env) (st : State) (B : SessionUser) (id : JsString)
    (hB : st.session.user = some B) (hq : env.queryFails st.store.log.length = false)
    (h : noGoalOf env st.store.db id B.id) :
    getGoal env id st =
      goalNotFound st { st.store with log := st.store.log ++ [.selectGoal id B.id] } := by
  simp [getGoal, route, isAuthenticated, hB, goalViewHandler, Env.select, Env.query, hq,
    goalsByIdAndUser_eq_nil env _ id B.id h]

theorem getGoalEdit_none (env : Env) (st : State) (B : SessionUser) (id : JsString)
    (hB : st.session.user = some B) (hq : env.queryFails st.store.log.length = false)
    (h : noGoalOf env st.store.db id B.id) :
    getGoalEdit env id st =
      goalNotFound st { st.store with log := st.store.log ++ [.selectGoal id B.id] } := by
  simp [getGoalEdit, route, isAuthenticated, hB, goalEditFormHandler, Env.select, Env.query,
    hq, goalsByIdAndUser_eq_nil env _ id B.id h]

/-- The test `!x || x.trim() === ""` gives an answer on every value but a
truthy one that is not a string. -/
theorem blank_of_not_truthy_other (v : BodyValue) (h : v ≠ .other true) :
    ∃ b, v.blank = some b := by
  cases v with
  | field x => exact ⟨x.blank, rfl⟩
  | other t =>
    cases t with
    | false => exact ⟨true, rfl⟩
    | true => exact absurd rfl h

theorem postGoalEdit_none (env : Env) (st : State) (B : SessionUser) (id : JsString)
    (f : GoalFields) (hB : st.session.user = some B)
    (ht : f.title ≠ .other true)
    (hq : env.queryFails st.store.log.length = false)
    (h : noGoalOf env st.store.db id B.id) :
    postGoalEdit env id f st =
      goalNotFound st { st.store with log := st.store.log ++ [.selectGoal id B.id] } := by
  obtain ⟨b, hb⟩ := blank_of_not_truthy_other f.title ht
  simp [postGoalEdit, route, isAuthenticated, hB, goalUpdateHandler, hb, Env.select,
    Env.query, hq, goalsByIdAndUser_eq_nil env _ id B.id h]

/-- The goal update with a title that is truthy and not a string raises,
whatever the id, and sends no statement. -/
theorem postGoalEdit_raises (env : Env) (st : State) (B : SessionUser) (id : JsString)
    (f : GoalFields) (hB : st.session.user = some B) (ht : f.title = .other true) :
    postGoalEdit env id f st =
      { state := st, response := .uncaught "TypeError: title.trim is not a function" } := by
  simp [postGoalEdit, route, isAuthenticated, hB, goalUpdateHandler, ht, BodyValue.blank]

theorem postGoalProgress_none (env : Env) (st : State) (B : SessionUser) (id : JsString)
    (cv : Field) (hB : st.session.user = some B)
    (hq : env.queryFails st.store.log.length = false)
    (h : noGoalOf env st.store.db id B.id) :
    postGoalProgress env id cv st =
      { state :=
          { st with store := { st.store with log := st.store.log ++ [.selectGoal id B.id] } }
        response := .json 404 "Goal not found" } := by
  simp [postGoalProgress, route, isAuthenticated, hB, goalProgressHandler, Env.select,
    Env.query, hq, goalsByIdAndUser_eq_nil env _ id B.id h]

theorem postGoalDelete_none (env : Env) (st : State) (B : SessionUser) (id : JsString)
    (hB : st.session.user = some B) (hq : env.queryFails st.store.log.length = false)
    (h : noGoalOf env st.store.db id B.id) :
    postGoalDelete env id st =
      goalNotFound st { st.store with log := st.store.log ++ [.deleteGoal id B.id] } := by
  simp [postGoalDelete, route, isAuthenticated, hB, goalDeleteHandler, Env.query, hq,
    deleteGoal_none env _ id B.id h]

/-- The goal routes on a goal of another user: with `B` the session user and
`g` a goal of another user, in a goals table whose ids are all different, the
view, edit form, update, progress update and delete of `g` by its id answer as
they do for an id that matches no goal, whatever the submitted fields, and
leave the database, so `g`, as it was. The answer is the not-found response of
the operation, status 404; for the update this needs a title that is not a
truthy value other than a string. -/
theorem goal_of_other_user_not_found (env : Env) (st : State) (B : SessionUser)
    (g : GoalRow) (id id' : JsString) (f : GoalFields) (cv : Field)
    (hB : st.session.user = some B)
    (hg : g ∈ st.store.db.goals) (hAB : g.user_id ≠ B.id)
    (hkeys : (st.store.db.goals.map (fun r => r.id)).Nodup)
    (hid : env.sqlKey id = some g.id)
    (hid' : ∀ r ∈ st.store.db.goals, env.sqlKey id' ≠ some r.id)
    (hq : env.queryFails st.store.log.length = false) :
    ((getGoal env id st).response = (getGoal env id' st).response ∧
      (getGoal env id st).response = .render 404 (.notFound "Goal Not Found") ∧
      (getGoal env id st).state.store.db = st.store.db) ∧
    ((getGoalEdit env id st).response = (getGoalEdit env id' st).response ∧
      (getGoalEdit env id st).response = .render 404 (.notFound "Goal Not Found") ∧
      (getGoalEdit env id st).state.store.db = st.store.db) ∧
    ((postGoalEdit env id f st).response = (postGoalEdit env id' f st).response ∧
      (f.title ≠ .other true →
        (postGoalEdit env id f st).response = .render 404 (.notFound "Goal Not Found")) ∧
      (f.title = .other true →
        (postGoalEdit env id f st).response =
          .uncaught "TypeError: title.trim is not a function") ∧
      (postGoalEdit env id f st).state.store.db = st.store.db ∧
      g ∈ (postGoalEdit env id f st).state.store.db.goals) ∧
    ((postGoalProgress env id cv st).response = (postGoalProgress env id' cv st).response ∧
      (postGoalProgress env id cv st).response = .json 404 "Goal not found" ∧
      (postGoalProgress env id cv st).state.store.db = st.store.db ∧
      g ∈ (postGoalProgress env id cv st).state.store.db.goals) ∧
    ((postGoalDelete env id st).response = (postGoalDelete env id' st).response ∧
      (postGoalDelete env id st).response = .render 404 (.notFound "Goal Not Found") ∧
      (postGoalDelete env id st).state.store.db = st.store.db ∧
      g ∈ (postGoalDelete env id st).state.store.db.goals) := by
  have h := noGoalOf_of_other env st.store.db id B.id g hg hAB hkeys hid
  have h' := noGoalOf_of_unmatched env st.store.db id' B.id hid'
  have hedit : (postGoalEdit env id f st).response = (postGoalEdit env id' f st).response ∧
      (f.title ≠ .other true →
        (postGoalEdit env id f st).response = .render 404 (.notFound "Goal Not Found")) ∧
      (f.title = .other true →
        (postGoalEdit env id f st).response =
          .uncaught "TypeError: title.trim is not a function") ∧
      (postGoalEdit env id f st).state.store.db = st.store.db ∧
      g ∈ (postGoalEdit env id f st).state.store.db.goals := by
    by_cases ht : f.title = .other true
    · simp [postGoalEdit_raises env st B _ f hB ht, ht, hg]
    · simp [postGoalEdit_none env st B _ f hB ht hq h,
        postGoalEdit_none env st B _ f hB ht hq h', goalNotFound, hg, ht]
  refine ⟨?_, ?_, hedit, ?_, ?_⟩
  · simp [getGoal_none env st B _ hB hq h, getGoal_none env st B _ hB hq h', goalNotFound]
  · simp [getGoalEdit_none env st B _ hB hq h, getGoalEdit_none env st B _ hB hq h',
      goalNotFound]
  · simp [postGoalProgress_none env st B _ cv hB hq h,
      postGoalProgress_none env st B _ cv hB hq h', hg]
  · simp [postGoalDelete_none env st B _ hB hq h, postGoalDelete_none env st B _ hB hq h',
      goalNotFound, hg]

/-! ## Workouts of another user -/

theorem noWorkoutOf_of_other (env : Env) (db : Db) (id : JsString) (uid : Nat)
    (w : WorkoutRow) (hw : w ∈ db.workouts) (hne : w.user_id ≠ uid)
    (hkeys : (db.workouts.map (fun r => r.id)).Nodup) (hid : env.sqlKey id = some w.id) :
    noWorkoutOf env db id uid := by
  intro w' hw' hk
  have hsame : w' = w := by
    apply row_eq_of_keys_nodup (fun r : WorkoutRow => r.id) db.workouts hkeys hw' hw
    have := hk.symm.trans hid
    simpa using this
  rw [hsame]; exact hne

theorem noWorkoutOf_of_unmatched (env : Env) (db : Db) (id : JsString) (uid : Nat)
    (h : ∀ w ∈ db.workouts, env.sqlKey id ≠ some w.id) : noWorkoutOf env db id uid :=
  fun w hw hk => absurd hk (h w hw)

theorem workoutsByIdAndUser_eq_nil (env : Env) (db : Db) (id : JsString) (uid : Nat)
    (h : noWorkoutOf env db id uid) : db.workoutsByIdAndUser env id uid = [] := by
  simp only [Db.workoutsByIdAndUser, List.filter_eq_nil_iff]
  intro w hw
  have := h w hw
  simp only [ownedMatch, Bool.and_eq_true, beq_iff_eq, not_and]
  exact this

theorem deleteWorkout_none (env : Env) (db : Db) (id : JsString) (uid : Nat)
    (h : noWorkoutOf env db id uid) : db.deleteWorkout env id uid = (0, db) := by
  have hnil := workoutsByIdAndUser_eq_nil env db id uid h
  have hall :
      db.workouts.filter (fun w => !ownedMatch env id uid w.id w.user_id) = db.workouts := by
    rw [List.filter_eq_self]
    intro w hw
    have := h w hw
    simp only [ownedMatch, Bool.not_eq_true', Bool.and_eq_false_iff, beq_eq_false_iff_ne, ne_eq]
    by_cases hk : env.sqlKey id = some w.id
    · exact Or.inr (this hk)
    · exact Or.inl hk
  simp only [Db.workoutsByIdAndUser] at hnil
  simp [Db.deleteWorkout, hnil, hall]

theorem getWorkout_none (env : Env) (st : State) (B : SessionUser) (id : JsString)
    (hB : st.session.user = some B) (hq : env.queryFails st.store.log.length = false)
    (h : noWorkoutOf env st.store.db id B.id) :
    getWorkout env id st =
      workoutNotFound st
        { st.store with log := st.store.log ++ [.selectWorkout id B.id] } := by
  simp [getWorkout, route, isAuthenticated, hB, workoutViewHandler, Env.select, Env.query, hq,
    workoutsByIdAndUser_eq_nil env _ id B.id h]

theorem getWorkoutEdit_none (env : Env) (st : State) (B : SessionUser) (id : JsString)
    (hB : st.session.user = some B) (hq : env.queryFails st.store.log.length = false)
    (h : noWorkoutOf env st.store.db id B.id) :
    getWorkoutEdit env id st =
      workoutNotFound st
        { st.store with log := st.store.log ++ [.selectWorkout id B.id] } := by
  simp [getWorkoutEdit, route, isAuthenticated, hB, workoutEditFormHandler, Env.select,
    Env.query, hq, workoutsByIdAndUser_eq_nil env _ id B.id h]

theorem postWorkoutEdit_none (env : Env) (st : State) (B : SessionUser) (id : JsString)
    (f : WorkoutFields) (hB : st.session.user = some B)
    (ht : f.name ≠ .other true)
    (hq : env.queryFails st.store.log.length = false)
    (h : noWorkoutOf env st.store.db id B.id) :
    postWorkoutEdit env id f st =
      workoutNotFound st
        { st.store with log := st.store.log ++ [.selectWorkout id B.id] } := by
  obtain ⟨b, hb⟩ := blank_of_not_truthy_other f.name ht
  simp [postWorkoutEdit, route, isAuthenticated, hB, workoutUpdateHandler, hb, Env.select,
    Env.query, hq, workoutsByIdAndUser_eq_nil env _ id B.id h]

/-- The workout update with a name that is truthy and not a string raises,
whatever the id, and sends no statement. -/
theorem postWorkoutEdit_raises (env : Env) (st : State) (B : SessionUser) (id : JsString)
    (f : WorkoutFields) (hB : st.session.user = some B) (ht : f.name = .other true) :
    postWorkoutEdit env id f st =
      { state := st, response := .uncaught "TypeError: name.trim is not a function" } := by
  simp [postWorkoutEdit, route, isAuthenticated, hB, workoutUpdateHandler, ht,
    BodyValue.blank]

theorem postWorkoutDelete_none (env : Env) (st : State) (B : SessionUser) (id : JsString)
    (hB : st.session.user = some B) (hq : env.queryFails st.store.log.length = false)
    (h : noWorkoutOf env st.store.db id B.id) :
    postWorkoutDelete env id st =
      workoutNotFound st
        { st.store with log := st.store.log ++ [.deleteWorkout id B.id] } := by
  simp [postWorkoutDelete, route, isAuthenticated, hB, workoutDeleteHandler, Env.query, hq,
    deleteWorkout_none env _ id B.id h]

/-- The workout routes on a workout of another user: with `B` the session
user and `w` a workout of another user, in a workouts table whose ids are all
different, the view, edit form, update and delete of `w` by its id answer as
they do for an id that matches no workout, whatever the submitted fields; no
answer carries a row, and the database, so `w` and its exercise entries, stays
as it was. The answer is the 404 not-found page; for the update this needs a
name that is not a truthy value other than a string. -/
theorem workout_of_other_user_not_found (env : Env) (st : State) (B : SessionUser)
    (w : WorkoutRow) (id id' : JsString) (f : WorkoutFields)
    (hB : st.session.user = some B)
    (hw : w ∈ st.store.db.workouts) (hAB : w.user_id ≠ B.id)
    (hkeys : (st.store.db.workouts.map (fun r => r.id)).Nodup)
    (hid : env.sqlKey id = some w.id)
    (hid' : ∀ r ∈ st.store.db.workouts, env.sqlKey id' ≠ some r.id)
    (hq : env.queryFails st.store.log.length = false) :
    ((getWorkout env id st).response = (getWorkout env id' st).response ∧
      (getWorkout env id st).response = .render 404 (.notFound "Workout Not Found") ∧
      (getWorkout env id st).state.store.db = st.store.db) ∧
    ((getWorkoutEdit env id st).response = (getWorkoutEdit env id' st).response ∧
      (getWorkoutEdit env id st).response = .render 404 (.notFound "Workout Not Found") ∧
      (getWorkoutEdit env id st).state.store.db = st.store.db) ∧
    ((postWorkoutEdit env id f st).response = (postWorkoutEdit env id' f st).response ∧
      (f.name ≠ .other true →
        (postWorkoutEdit env id f st).response =
          .render 404 (.notFound "Workout Not Found")) ∧
      (f.name = .other true →
        (postWorkoutEdit env id f st).response =
          .uncaught "TypeError: name.trim is not a function") ∧
      (postWorkoutEdit env id f st).state.store.db = st.store.db) ∧
    ((postWorkoutDelete env id st).response = (postWorkoutDelete env id' st).response ∧
      (postWorkoutDelete env id st).response = .render 404 (.notFound "Workout Not Found") ∧
      (postWorkoutDelete env id st).state.store.db = st.store.db) := by
  have h := noWorkoutOf_of_other env st.store.db id B.id w hw hAB hkeys hid
  have h' := noWorkoutOf_of_unmatched env st.store.db id' B.id hid'
  have hedit :
      (postWorkoutEdit env id f st).response = (postWorkoutEdit env id' f st).response ∧
      (f.name ≠ .other true →
        (postWorkoutEdit env id f st).response =
          .render 404 (.notFound "Workout Not Found")) ∧
      (f.name = .other true →
        (postWorkoutEdit env id f st).response =
          .uncaught "TypeError: name.trim is not a function") ∧
      (postWorkoutEdit env id f st).state.store.db = st.store.db := by
    by_cases ht : f.name = .other true
    · simp [postWorkoutEdit_raises env st B _ f hB ht, ht]
    · simp [postWorkoutEdit_none env st B _ f hB ht hq h,
        postWorkoutEdit_none env st B _ f hB ht hq h', workoutNotFound, ht]
  refine ⟨?_, ?_, hedit, ?_⟩
  · simp [getWorkout_none env st B _ hB hq h, getWorkout_none env st B _ hB hq h',
      workoutNotFound]
  · simp [getWorkoutEdit_none env st B _ hB hq h, getWorkoutEdit_none env st B _ hB hq h',
      workoutNotFound]
  · simp [postWorkoutDelete_none env st B _ hB hq h,
      postWorkoutDelete_none env st B _ hB hq h', workoutNotFound]

/-! ## Exercise entries of a workout -/

theorem mem_ownedWorkoutExercises (env : Env) (db : Db) (x : JsString) (uid : Nat)
    (e : WorkoutExerciseRow) :
    e ∈ db.ownedWorkoutExercises env x uid ↔
      e ∈ db.workout_exercises ∧ env.sqlKey x = some e.id ∧
        ∃ w ∈ db.workouts, w.id = e.workout_id ∧ w.user_id = uid := by
  simp only [Db.ownedWorkoutExercises, List.mem_flatMap, List.mem_map, List.mem_filter,
    Bool.and_eq_true, beq_iff_eq]
  constructor
  · rintro ⟨we, hwe, w, ⟨hw, ⟨h1, h2⟩, h3⟩, rfl⟩
    exact ⟨hwe, h2, w, hw, h1.symm, h3⟩
  · rintro ⟨he, hk, w, hw, h1, h3⟩
    exact ⟨e, he, w, ⟨hw, ⟨h1.symm, hk⟩, h3⟩, rfl⟩

theorem ownedWorkoutExercises_eq_nil (env : Env) (db : Db) (x : JsString) (uid : Nat)
    (h : noEntryOf env db x uid) : db.ownedWorkoutExercises env x uid = [] := by
  rw [List.eq_nil_iff_forall_not_mem]
  intro e he
  obtain ⟨hmem, hk, w, hw, h1, h3⟩ := (mem_ownedWorkoutExercises env db x uid e).1 he
  exact h e hmem hk w hw h1 h3

theorem postWorkoutExercise_none (env : Env) (st : State) (B : SessionUser) (id : JsString)
    (f : EntryFields) (hB : st.session.user = some B)
    (hq : env.queryFails st.store.log.length = false)
    (h : noWorkoutOf env st.store.db id B.id) :
    postWorkoutExercise env id f st =
      { state :=
          { st with
            store := { st.store with log := st.store.log ++ [.selectWorkout id B.id] } }
        response := .json 404 "Workout not found" } := by
  simp [postWorkoutExercise, route, isAuthenticated, hB, workoutAddExerciseHandler, Env.select,
    Env.query, hq, workoutsByIdAndUser_eq_nil env _ id B.id h]

theorem postWorkoutExerciseDelete_none (env : Env) (st : State) (B : SessionUser)
    (id x : JsString) (hB : st.session.user = some B)
    (hq : env.queryFails st.store.log.length = false)
    (h : noEntryOf env st.store.db x B.id) :
    postWorkoutExerciseDelete env id x st =
      { state :=
          { st with
            store :=
              { st.store with
                log := st.store.log ++ [.selectOwnedWorkoutExercise x B.id] } }
        response := .json 404 "Exercise not found" } := by
  simp [postWorkoutExerciseDelete, route, isAuthenticated, hB, workoutRemoveExerciseHandler,
    Env.select, Env.query, hq, ownedWorkoutExercises_eq_nil env _ x B.id h]

/-- An entry that the remove route deletes belongs to a workout of the session
user, when the entries have different ids. -/
theorem removed_entry_owned (env : Env) (st : State) (B : SessionUser) (id x : JsString)
    (r : WorkoutExerciseRow) (hB : st.session.user = some B)
    (hkeys : (st.store.db.workout_exercises.map (fun e => e.id)).Nodup)
    (hr : r ∈ st.store.db.workout_exercises)
    (hgone : r ∉ (postWorkoutExerciseDelete env id x st).state.store.db.workout_exercises) :
    ∃ w ∈ st.store.db.workouts, w.id = r.workout_id ∧ w.user_id = B.id := by
  simp only [postWorkoutExerciseDelete, route, isAuthenticated, hB, Option.isSome_some,
    if_true, workoutRemoveExerciseHandler, Env.select, Env.query] at hgone
  by_cases hq : env.queryFails st.store.log.length = true
  · simp [hq, redirectError, hr] at hgone
  · simp only [hq, Bool.false_eq_true, if_false] at hgone
    cases hl : st.store.db.ownedWorkoutExercises env x B.id with
    | nil => simp [hl, hr] at hgone
    | cons e0 rest =>
      have he0 : e0 ∈ st.store.db.ownedWorkoutExercises env x B.id := by
        rw [hl]; exact List.mem_cons_self _ _
      obtain ⟨hmem, hk, w, hw, h1, h3⟩ := (mem_ownedWorkoutExercises env _ x B.id e0).1 he0
      simp only [hl] at hgone
      simp only [List.length_append, List.length_singleton] at hgone
      by_cases hq2 : env.queryFails (st.store.log.length + 1) = true
      · simp [hq2, redirectError, hr] at hgone
      · simp only [hq2, Bool.false_eq_true, if_false, redirectSuccess,
          Db.deleteWorkoutExercise, List.mem_filter, hr, true_and, Bool.not_eq_true',
          beq_eq_false_iff_ne, ne_eq, not_not] at hgone
        have hsame : e0 = r := by
          apply row_eq_of_keys_nodup (fun e : WorkoutExerciseRow => e.id) _ hkeys hmem hr
          have := hk.symm.trans hgone
          simpa using this
        exact ⟨w, hw, hsame ▸ h1, h3⟩

/-- C9: with `B` the session user, `w` a workout of another user and `e` an
entry of `w` (the ids of each table being all different): adding an exercise
to `w` and removing `e`, under any workout id in the address, answer 404 and
leave `workout_exercises` as it was; and whatever the request, an entry that
the remove route deletes belongs to a workout of the session user. -/
theorem exercise_changes_need_ownership (env : Env) (st : State) (B : SessionUser)
    (w : WorkoutRow) (e : WorkoutExerciseRow) (id x : JsString) (f : EntryFields)
    (hB : st.session.user = some B)
    (hwkeys : (st.store.db.workouts.map (fun r => r.id)).Nodup)
    (hekeys : (st.store.db.workout_exercises.map (fun r => r.id)).Nodup)
    (hw : w ∈ st.store.db.workouts) (hAB : w.user_id ≠ B.id)
    (hid : env.sqlKey id = some w.id)
    (he : e ∈ st.store.db.workout_exercises) (hew : e.workout_id = w.id)
    (hx : env.sqlKey x = some e.id)
    (hq : env.queryFails st.store.log.length = false) :
    ((postWorkoutExercise env id f st).response = .json 404 "Workout not found" ∧
      (postWorkoutExercise env id f st).state.store.db.workout_exercises =
        st.store.db.workout_exercises) ∧
    (∀ id2 : JsString,
      (postWorkoutExerciseDelete env id2 x st).response = .json 404 "Exercise not found" ∧
      (postWorkoutExerciseDelete env id2 x st).state.store.db.workout_exercises =
        st.store.db.workout_exercises) ∧
    (∀ (id2 x2 : JsString) (r : WorkoutExerciseRow), r ∈ st.store.db.workout_exercises →
      r ∉ (postWorkoutExerciseDelete env id2 x2 st).state.store.db.workout_exercises →
      ∃ w2 ∈ st.store.db.workouts, w2.id = r.workout_id ∧ w2.user_id = B.id) := by
  have h := noWorkoutOf_of_other env st.store.db id B.id w hw hAB hwkeys hid
  have hno : noEntryOf env st.store.db x B.id := by
    intro e2 he2 hk w2 hw2 h2
    have hsame : e2 = e := by
      apply row_eq_of_keys_nodup (fun r : WorkoutExerciseRow => r.id) _ hekeys he2 he
      have := hk.symm.trans hx
      simpa using this
    have hw2w : w2 = w := by
      apply row_eq_of_keys_nodup (fun r : WorkoutRow => r.id) _ hwkeys hw2 hw
      show w2.id = w.id
      rw [h2, hsame, hew]
    rw [hw2w]; exact hAB
  refine ⟨?_, ?_, ?_⟩
  · simp [postWorkoutExercise_none env st B id f hB hq h]
  · intro id2
    simp [postWorkoutExerciseDelete_none env st B id2 x hB hq hno]
  · intro id2 x2 r hr hgone
    exact removed_entry_owned env st B id2 x2 r hB hekeys hr hgone

/-! ## Registration: the validation gate -/

theorem registerValidation_strings (u e p c : JsString) (fn ln : Field) :
    registerValidation ⟨some u, some e, some p, some c, fn, ln⟩ =
      .ok ((if u.length < 3 then [msgUsername] else []) ++
        (if '@'.toNat ∈ e then [] else [msgEmail]) ++
        (validatePassword p).errors ++
        (if p = c then [] else [msgMismatch])) := by
  have hv := validatePassword_isValid p
  have hu : (u.isEmpty || decide (u.length < 3)) = decide (u.length < 3) := by
    cases u <;> simp
  have he : (e.isEmpty || !e.contains 64) = !e.contains 64 := by
    cases e <;> simp
  have hpv : ∀ errs : List String,
      (if (!(validatePassword p).isValid) = true then errs ++ (validatePassword p).errors
        else errs) = errs ++ (validatePassword p).errors := by
    intro errs
    by_cases h3 : (validatePassword p).isValid = true
    · simp [h3, hv.1 h3]
    · simp [h3]
  simp only [registerValidation, Field.falsyOr, hu, he, hpv]
  by_cases h1 : u.length < 3 <;> by_cases h2 : (64 : Nat) ∈ e <;> by_cases h4 : p = c <;>
    simp [h1, h2, h4]

theorem registerStore_log (env : Env) (body : RegisterForm) (u e p : JsString) (st : State) :
    ∃ rest, (registerStore env body u e p st).state.store.log =
      st.store.log ++ Stmt.selectUserByUsernameOrEmail u e :: rest := by
  unfold registerStore Env.select Env.query
  by_cases hq : env.queryFails st.store.log.length = true
  · exact ⟨[], by simp [hq, registerFailure]⟩
  · cases hl : st.store.db.usersByUsernameOrEmail env u e with
    | cons r rs => exact ⟨[], by simp [hq, hl, registerFailure]⟩
    | nil =>
      cases hh : env.bcryptHash p 10 with
      | none => exact ⟨[], by simp [hq, hl, hh, registerFailure]⟩
      | some ph =>
        by_cases hq1 : env.queryFails (st.store.log.length + 1) = true
        · exact ⟨[.insertUser u e ph], by simp [hq, hl, hh, hq1, registerFailure]⟩
        · by_cases hq2 : env.queryFails (st.store.log.length + 1 + 1) = true
          · exact ⟨[.insertUser u e ph, .insertProfile (st.store.db.insertUser u e ph).1
              (.orNull body.firstName) (.orNull body.lastName)],
              by simp [hq, hl, hh, hq1, hq2, registerFailure]⟩
          · exact ⟨[.insertUser u e ph, .insertProfile (st.store.db.insertUser u e ph).1
              (.orNull body.firstName) (.orNull body.lastName)],
              by simp [hq, hl, hh, hq1, hq2]⟩

/-- C10: for a submission whose fields are strings, sent without a session
user, the register route passes validation and sends the uniqueness query
exactly when the username has at least 3 code units, the email contains "@",
the password passes `validatePassword` and equals the confirmation; otherwise
it renders the register view with a non-empty list of errors and the state,
so the store and its log, is as it was. -/
theorem register_validation_gate (env : Env) (st : State) (u e p c : JsString)
    (fn ln : Field) (hs : st.session.user = none) :
    (registerValidation ⟨some u, some e, some p, some c, fn, ln⟩ = .ok [] ↔
      (3 ≤ u.length ∧ '@'.toNat ∈ e ∧ (validatePassword p).isValid = true ∧ p = c)) ∧
    ((∃ rest, (postRegister env ⟨some u, some e, some p, some c, fn, ln⟩ st).state.store.log =
        st.store.log ++ Stmt.selectUserByUsernameOrEmail u e :: rest) ↔
      (3 ≤ u.length ∧ '@'.toNat ∈ e ∧ (validatePassword p).isValid = true ∧ p = c)) ∧
    (¬ (3 ≤ u.length ∧ '@'.toNat ∈ e ∧ (validatePassword p).isValid = true ∧ p = c) →
      ∃ errors, errors ≠ [] ∧
        postRegister env ⟨some u, some e, some p, some c, fn, ln⟩ st =
          { state := st,
            response := .render 200
              (.authRegister registerTitle errors ⟨some u, some e, fn, ln⟩) }) := by
  obtain ⟨errs, hval, hiff⟩ : ∃ errs,
      registerValidation ⟨some u, some e, some p, some c, fn, ln⟩ = .ok errs ∧
      (errs = [] ↔
        (3 ≤ u.length ∧ '@'.toNat ∈ e ∧ (validatePassword p).isValid = true ∧ p = c)) := by
    refine ⟨_, registerValidation_strings u e p c fn ln, ?_⟩
    rw [validatePassword_isValid]
    by_cases h1 : u.length < 3 <;> by_cases h2 : (64 : Nat) ∈ e <;> by_cases h4 : p = c <;>
      simp [h1, h2, h4]
    all_goals omega
  have hpost : postRegister env ⟨some u, some e, some p, some c, fn, ln⟩ st =
      registerHandler env ⟨some u, some e, some p, some c, fn, ln⟩ st := by
    simp [postRegister, route, isNotAuthenticated, hs]
  rw [hpost, hval]
  cases errs with
  | nil =>
    have hc := hiff.1 rfl
    have hh : registerHandler env ⟨some u, some e, some p, some c, fn, ln⟩ st =
        registerStore env ⟨some u, some e, some p, some c, fn, ln⟩ u e p st := by
      simp [registerHandler, hval]
    rw [hh]
    exact ⟨⟨fun _ => hc, fun _ => rfl⟩,
      ⟨fun _ => hc, fun _ => registerStore_log env _ u e p st⟩, fun hn => absurd hc hn⟩
  | cons a l =>
    have hn : ¬ (3 ≤ u.length ∧ '@'.toNat ∈ e ∧ (validatePassword p).isValid = true ∧ p = c) :=
      fun hc => by simpa using hiff.2 hc
    have hh : registerHandler env ⟨some u, some e, some p, some c, fn, ln⟩ st =
        { state := st,
          response := .render 200
            (.authRegister registerTitle (a :: l) ⟨some u, some e, fn, ln⟩) } := by
      simp [registerHandler, hval, registerFailure]
    rw [hh]
    refine ⟨⟨fun h => by simp at h, fun hc => absurd hc hn⟩, ⟨?_, fun hc => absurd hc hn⟩,
      fun _ => ⟨a :: l, by simp, rfl⟩⟩
    rintro ⟨rest, hrest⟩
    simp at hrest

/-! ## The statements above on the sample data -/

/-- C5 on the sample data: the unknown user carol and alice with a wrong password. -/
theorem login_failures_identical_witness :
    (postLogin sampleEnv ⟨some (utf16 "carol"), some (utf16 "Abcdef1!")⟩ anonymousState).response =
      (postLogin sampleEnv ⟨some (utf16 "alice"), some (utf16 "wrong")⟩ anonymousState).response ∧
    (postLogin sampleEnv ⟨some (utf16 "carol"), some (utf16 "Abcdef1!")⟩ anonymousState).response =
      .render 200 (.authLogin loginTitle [msgInvalidCredentials]) ∧
    (postLogin sampleEnv ⟨some (utf16 "carol"), some (utf16 "Abcdef1!")⟩
      anonymousState).state.session.user = none ∧
    (postLogin sampleEnv ⟨some (utf16 "alice"), some (utf16 "wrong")⟩
      anonymousState).state.session.user = none :=
  login_failures_identical sampleEnv anonymousState anonymousState (utf16 "carol")
    (utf16 "Abcdef1!") (utf16 "alice") (utf16 "wrong") rfl rfl (by decide) (by decide)
    (by decide) (by decide) rfl rfl (by decide) (by decide) (by decide)

/-- The goal routes on the sample data: bob asks for the goal 7 of alice and for
the absent goal 8. -/
theorem goal_of_other_user_not_found_witness :
    ((getGoal sampleEnv (utf16 "7") bobState).response =
        (getGoal sampleEnv (utf16 "8") bobState).response ∧
      (getGoal sampleEnv (utf16 "7") bobState).response =
        .render 404 (.notFound "Goal Not Found") ∧
      (getGoal sampleEnv (utf16 "7") bobState).state.store.db = sampleDb) ∧
    (postGoalEdit sampleEnv (utf16 "7") noGoalFields bobState).response =
      .render 404 (.notFound "Goal Not Found") ∧
    (postGoalProgress sampleEnv (utf16 "7") (some (utf16 "12")) bobState).response =
      .json 404 "Goal not found" ∧
    aliceGoal ∈ (postGoalDelete sampleEnv (utf16 "7") bobState).state.store.db.goals :=
  have h := goal_of_other_user_not_found sampleEnv bobState bobUser aliceGoal (utf16 "7")
    (utf16 "8") noGoalFields (some (utf16 "12")) rfl (by decide) (by decide) (by decide)
    (by decide) (by decide) rfl
  ⟨h.1, h.2.2.1.2.1 (by decide), h.2.2.2.1.2.1, h.2.2.2.2.2.2.2⟩

/-- The workout routes on the sample data: bob asks for the workout 3 of alice
and for the absent workout 4. -/
theorem workout_of_other_user_not_found_witness :
    ((getWorkout sampleEnv (utf16 "3") bobState).response =
        (getWorkout sampleEnv (utf16 "4") bobState).response ∧
      (getWorkout sampleEnv (utf16 "3") bobState).response =
        .render 404 (.notFound "Workout Not Found") ∧
      (getWorkout sampleEnv (utf16 "3") bobState).state.store.db = sampleDb) ∧
    (postWorkoutEdit sampleEnv (utf16 "3") noWorkoutFields bobState).response =
      .render 404 (.notFound "Workout Not Found") ∧
    ((postWorkoutDelete sampleEnv (utf16 "3") bobState).response =
        (postWorkoutDelete sampleEnv (utf16 "4") bobState).response ∧
      (postWorkoutDelete sampleEnv (utf16 "3") bobState).response =
        .render 404 (.notFound "Workout Not Found") ∧
      (postWorkoutDelete sampleEnv (utf16 "3") bobState).state.store.db = sampleDb) :=
  have h := workout_of_other_user_not_found sampleEnv bobState bobUser aliceWorkout (utf16 "3")
    (utf16 "4") noWorkoutFields rfl (by decide) (by decide) (by decide) (by decide)
    (by decide) rfl
  ⟨h.1, h.2.2.1.2.1 (by decide), h.2.2.2⟩

/-- The goal update raises at a title that is an array, also for the owner of
the goal and for an id of no goal: the answer depends on the title alone. -/
theorem goalUpdateHandler_raises (env : Env) (id : JsString) (f : GoalFields) (st : State)
    (ht : f.title = .other true) :
    goalUpdateHandler env id f st =
      { state := st, response := .uncaught "TypeError: title.trim is not a function" } := by
  simp [goalUpdateHandler, ht, BodyValue.blank]

/-- C7, at the update of the goal 7 of alice by bob with the title sent twice
(`title=a&title=b`, an array): the test of the title raises before the
ownership query, so the answer is not the 404 page that the same request gives
with a title that is absent; no statement is sent and the goal stays as it
was. -/
theorem goal_update_array_title_raises :
    (postGoalEdit sampleEnv (utf16 "7") arrayTitleFields bobState).response =
      .uncaught "TypeError: title.trim is not a function" ∧
    (postGoalEdit sampleEnv (utf16 "7") arrayTitleFields bobState).response ≠
      .render 404 (.notFound "Goal Not Found") ∧
    (postGoalEdit sampleEnv (utf16 "7") noGoalFields bobState).response =
      .render 404 (.notFound "Goal Not Found") ∧
    (postGoalEdit sampleEnv (utf16 "7") arrayTitleFields bobState).state.store =
      bobState.store ∧
    aliceGoal ∈ bobState.store.db.goals ∧ aliceGoal.user_id ≠ bobUser.id := by
  decide

/-- The workout update raises at a name that is an array, also for the owner
of the workout and for an id of no workout: the answer depends on the name
alone. -/
theorem workoutUpdateHandler_raises (env : Env) (id : JsString) (f : WorkoutFields)
    (st : State) (ht : f.name = .other true) :
    workoutUpdateHandler env id f st =
      { state := st, response := .uncaught "TypeError: name.trim is not a function" } := by
  simp [workoutUpdateHandler, ht, BodyValue.blank]

/-- C8, at the update of the workout 3 of alice by bob with the name sent twice
(`name=a&name=b`, an array): the test of the name raises before the ownership
query, so the answer is not the 404 page that the same request gives with a
name that is absent; no statement is sent and the workout and its entries stay
as they were. -/
theorem workout_update_array_name_raises :
    (postWorkoutEdit sampleEnv (utf16 "3") arrayNameFields bobState).response =
      .uncaught "TypeError: name.trim is not a function" ∧
    (postWorkoutEdit sampleEnv (utf16 "3") arrayNameFields bobState).response ≠
      .render 404 (.notFound "Workout Not Found") ∧
    (postWorkoutEdit sampleEnv (utf16 "3") noWorkoutFields bobState).response =
      .render 404 (.notFound "Workout Not Found") ∧
    (postWorkoutEdit sampleEnv (utf16 "3") arrayNameFields bobState).state.store =
      bobState.store ∧
    aliceWorkout ∈ bobState.store.db.workouts ∧ aliceWorkout.user_id ≠ bobUser.id := by
  decide

/-- C9 on the sample data: bob adds to the workout 3 of alice and removes its entry 5. -/
theorem exercise_changes_need_ownership_witness :
    ((postWorkoutExercise sampleEnv (utf16 "3") noEntryFields bobState).response =
        .json 404 "Workout not found" ∧
      (postWorkoutExercise sampleEnv (utf16 "3") noEntryFields
        bobState).state.store.db.workout_exercises = [aliceEntry]) ∧
    ((postWorkoutExerciseDelete sampleEnv (utf16 "3") (utf16 "5") bobState).response =
        .json 404 "Exercise not found" ∧
      (postWorkoutExerciseDelete sampleEnv (utf16 "3") (utf16 "5")
        bobState).state.store.db.workout_exercises = [aliceEntry]) :=
  have h := exercise_changes_need_ownership sampleEnv bobState bobUser aliceWorkout aliceEntry
    (utf16 "3") (utf16 "5") noEntryFields rfl (by decide) (by decide) (by decide) (by decide)
    (by decide) (by decide) rfl (by decide) rfl
  ⟨h.1, h.2.1 (utf16 "3")⟩

/-- C10 on the sample data: a valid submission for carol, without a session user. -/
theorem register_validation_gate_witness :
    (registerValidation
        ⟨some (utf16 "carol"), some (utf16 "carol@x.com"), some (utf16 "Abcdef1!"),
          some (utf16 "Abcdef1!"), none, none⟩ = .ok [] ↔
      (3 ≤ (utf16 "carol").length ∧ '@'.toNat ∈ utf16 "carol@x.com" ∧
        (validatePassword (utf16 "Abcdef1!")).isValid = true ∧
        utf16 "Abcdef1!" = utf16 "Abcdef1!")) ∧
    ((∃ rest,
        (postRegister sampleEnv
          ⟨some (utf16 "carol"), some (utf16 "carol@x.com"), some (utf16 "Abcdef1!"),
            some (utf16 "Abcdef1!"), none, none⟩ anonymousState).state.store.log =
          anonymousState.store.log ++
            Stmt.selectUserByUsernameOrEmail (utf16 "carol") (utf16 "carol@x.com") :: rest) ↔
      (3 ≤ (utf16 "carol").length ∧ '@'.toNat ∈ utf16 "carol@x.com" ∧
        (validatePassword (utf16 "Abcdef1!")).isValid = true ∧
        utf16 "Abcdef1!" = utf16 "Abcdef1!")) :=
  have h := register_validation_gate sampleEnv anonymousState (utf16 "carol")
    (utf16 "carol@x.com") (utf16 "Abcdef1!") (utf16 "Abcdef1!") none none rfl
  ⟨h.1, h.2.1⟩

/-! ## Registration: what the validation returns -/

theorem registerValidation_present (username email confirmPassword firstName lastName : Field)
    (p : JsString) :
    registerValidation ⟨username, email, some p, confirmPassword, firstName, lastName⟩ =
      .ok (collectedErrors username email confirmPassword p) := by
  have hv := validatePassword_isValid p
  have hpv : ∀ errs : List String,
      (if (!(validatePassword p).isValid) = true then errs ++ (validatePassword p).errors
        else errs) = errs ++ (validatePassword p).errors := by
    intro errs
    by_cases h3 : (validatePassword p).isValid = true
    · simp [h3, hv.1 h3]
    · simp [h3]
  have hu : username.falsyOr (fun u => decide (u.length < 3)) =
      !username.any (fun u => decide (3 ≤ u.length)) := by
    cases username with
    | none => rfl
    | some u =>
      cases u with
      | nil => rfl
      | cons a l =>
        simp only [Field.falsyOr, Option.any, List.isEmpty_cons, Bool.false_or]
        rw [Bool.eq_iff_iff]
        simp
        omega
  have he : email.falsyOr (fun e => !e.contains 64) =
      !email.any (fun e => decide ('@'.toNat ∈ e)) := by
    cases email with
    | none => rfl
    | some e => cases e <;> simp [Field.falsyOr]
  have hc : (some p != confirmPassword) = !decide (confirmPassword = some p) := by
    by_cases h : confirmPassword = some p
    · simp [h]
    · have h' : ¬ some p = confirmPassword := fun hh => h hh.symm
      simp [h, h', bne]
  simp only [registerValidation, collectedErrors, hu, he, hpv, hc]
  by_cases h1 : username.any (fun u => decide (3 ≤ u.length)) = true <;>
    by_cases h2 : email.any (fun e => decide ((64 : Nat) ∈ e)) = true <;>
    by_cases h4 : confirmPassword = some p <;> simp [h1, h2, h4]

/-- What the `try` block of the register handler can end in: the register
view with one message, or the redirect with a session user. -/
theorem registerStore_cases (env : Env) (body : RegisterForm) (u e p : JsString) (st : State) :
    (∃ store msg, registerStore env body u e p st = registerFailure body st store [msg]) ∨
    (∃ user, (registerStore env body u e p st).state.session.user = some user ∧
      (registerStore env body u e p st).response = .redirect (getBasePath env ++ utf16 "/")) := by
  by_cases hq : env.queryFails st.store.log.length = true
  · have h : registerStore env body u e p st = registerFailure body st
        { db := st.store.db, log := st.store.log ++ [.selectUserByUsernameOrEmail u e] }
        [msgRegisterFault] := by
      simp [registerStore, Env.select, Env.query, hq]
    exact Or.inl ⟨_, _, h⟩
  · cases hl : st.store.db.usersByUsernameOrEmail env u e with
    | cons r rs =>
      have h : registerStore env body u e p st = registerFailure body st
          { db := st.store.db, log := st.store.log ++ [.selectUserByUsernameOrEmail u e] }
          [if r.username == u then msgUsernameTaken else msgEmailRegistered] := by
        simp [registerStore, Env.select, Env.query, hq, hl]
      exact Or.inl ⟨_, _, h⟩
    | nil =>
      cases hh : env.bcryptHash p 10 with
      | none =>
        have h : registerStore env body u e p st = registerFailure body st
            { db := st.store.db, log := st.store.log ++ [.selectUserByUsernameOrEmail u e] }
            [msgRegisterFault] := by
          simp [registerStore, Env.select, Env.query, hq, hl, hh]
        exact Or.inl ⟨_, _, h⟩
      | some ph =>
        by_cases hq1 : env.queryFails (st.store.log.length + 1) = true
        · have h : registerStore env body u e p st = registerFailure body st
              { db := st.store.db,
                log := st.store.log ++ [.selectUserByUsernameOrEmail u e, .insertUser u e ph] }
              [msgRegisterFault] := by
            simp [registerStore, Env.select, Env.query, hq, hl, hh, hq1]
          exact Or.inl ⟨_, _, h⟩
        · by_cases hq2 : env.queryFails (st.store.log.length + 1 + 1) = true
          · have h : registerStore env body u e p st = registerFailure body st
                { db := (st.store.db.insertUser u e ph).2,
                  log := st.store.log ++ [.selectUserByUsernameOrEmail u e, .insertUser u e ph,
                    .insertProfile (st.store.db.insertUser u e ph).1 (.orNull body.firstName)
                      (.orNull body.lastName)] }
                [msgRegisterFault] := by
              simp [registerStore, Env.select, Env.query, hq, hl, hh, hq1, hq2]
            exact Or.inl ⟨_, _, h⟩
          · refine Or.inr ⟨⟨(st.store.db.insertUser u e ph).1, u, e,
              .names body.firstName body.lastName⟩, ?_⟩
            simp [registerStore, Env.select, Env.query, hq, hl, hh, hq1, hq2]

/-- With a password that is a string, the register handler ends in the
register view with messages and the submitted values other than the passwords,
or in the redirect with a session user. -/
theorem registerHandler_cases (env : Env) (st : State)
    (username email confirmPassword firstName lastName : Field) (p : JsString) :
    (∃ store errs, errs ≠ [] ∧
      registerHandler env ⟨username, email, some p, confirmPassword, firstName, lastName⟩ st =
        { state := { st with store := store },
          response := .render 200
            (.authRegister registerTitle errs ⟨username, email, firstName, lastName⟩) }) ∨
    (∃ user,
      (registerHandler env ⟨username, email, some p, confirmPassword, firstName, lastName⟩
        st).state.session.user = some user ∧
      (registerHandler env ⟨username, email, some p, confirmPassword, firstName, lastName⟩
        st).response = .redirect (getBasePath env ++ utf16 "/")) := by
  have hval := registerValidation_present username email confirmPassword firstName lastName p
  cases hE : collectedErrors username email confirmPassword p with
  | cons a l =>
    refine Or.inl ⟨st.store, a :: l, by simp, ?_⟩
    simp [registerHandler, hval, hE, registerFailure]
  | nil =>
    cases username with
    | none => simp [collectedErrors, msgUsername] at hE
    | some u =>
      cases email with
      | none => simp [collectedErrors, msgEmail] at hE
      | some e =>
        have hh : registerHandler env ⟨some u, some e, some p, confirmPassword, firstName,
            lastName⟩ st =
            registerStore env ⟨some u, some e, some p, confirmPassword, firstName, lastName⟩
              u e p st := by
          simp [registerHandler, hval, hE]
        rw [hh]
        rcases registerStore_cases env
          ⟨some u, some e, some p, confirmPassword, firstName, lastName⟩ u e p st with
          ⟨store, msg, h⟩ | h
        · exact Or.inl ⟨store, [msg], by simp, by rw [h]; rfl⟩
        · exact Or.inr h

/-- C11: for a submission whose password is a string, sent without a session
user, the validation collects, in this order, the username message, the email
message, every violation of the password policy and the mismatch message, each
if its rule is violated; when that list is not empty it is the list rendered,
and every rendered result carries exactly the submitted username, email,
firstName and lastName as form values. -/
theorem register_errors_collected (env : Env) (st : State)
    (username email confirmPassword firstName lastName : Field) (p : JsString)
    (hs : st.session.user = none) :
    registerValidation ⟨username, email, some p, confirmPassword, firstName, lastName⟩ =
      .ok (collectedErrors username email confirmPassword p) ∧
    (collectedErrors username email confirmPassword p ≠ [] →
      postRegister env ⟨username, email, some p, confirmPassword, firstName, lastName⟩ st =
        { state := st,
          response := .render 200
            (.authRegister registerTitle (collectedErrors username email confirmPassword p)
              ⟨username, email, firstName, lastName⟩) }) ∧
    (∀ status page,
      (postRegister env ⟨username, email, some p, confirmPassword, firstName, lastName⟩
        st).response = .render status page →
      ∃ errs, page = .authRegister registerTitle errs ⟨username, email, firstName, lastName⟩) := by
  have hval := registerValidation_present username email confirmPassword firstName lastName p
  have hpost : postRegister env ⟨username, email, some p, confirmPassword, firstName,
      lastName⟩ st =
      registerHandler env ⟨username, email, some p, confirmPassword, firstName, lastName⟩ st := by
    simp [postRegister, route, isNotAuthenticated, hs]
  refine ⟨hval, ?_, ?_⟩
  · intro hne
    rw [hpost]
    cases hE : collectedErrors username email confirmPassword p with
    | nil => exact absurd hE hne
    | cons a l => simp [registerHandler, hval, hE, registerFailure]
  · intro status page hr
    rw [hpost] at hr
    rcases registerHandler_cases env st username email confirmPassword firstName lastName p with
      ⟨store, errs, _, h⟩ | ⟨user, _, h⟩
    · rw [h] at hr
      simp only [Response.render.injEq] at hr
      exact ⟨errs, hr.2.symm⟩
    · rw [h] at hr
      cases hr

/-- C11 on the sample data: four rules violated at once. -/
theorem register_errors_collected_witness :
    registerValidation badForm =
      .ok [msgUsername, msgEmail, msgLength, msgUpper, msgDigit, msgSpecial, msgMismatch] ∧
    postRegister sampleEnv badForm bobOnlyState =
      { state := bobOnlyState,
        response := .render 200
          (.authRegister registerTitle
            [msgUsername, msgEmail, msgLength, msgUpper, msgDigit, msgSpecial, msgMismatch]
            ⟨some (utf16 "al"), some (utf16 "al.x.com"), some (utf16 "Al"), none⟩) } :=
  have h := register_errors_collected sampleEnv bobOnlyState (some (utf16 "al"))
    (some (utf16 "al.x.com")) (some (utf16 "b")) (some (utf16 "Al")) none (utf16 "a") rfl
  ⟨h.1, h.2.1 (by decide)⟩

/-! ## Registration without a password field -/

/-- Without a password field the register handler raises: `validatePassword`
reads `password.length` before the `try` block. -/
theorem registerHandler_absent_password (env : Env) (st : State)
    (username email confirmPassword firstName lastName : Field) :
    registerHandler env ⟨username, email, none, confirmPassword, firstName, lastName⟩ st =
      { state := st,
        response :=
          .uncaught "TypeError: Cannot read properties of undefined (reading 'length')" } := by
  simp [registerHandler, registerValidation]

/-- C12, at the submission of alice without the password field: no view is
rendered and no redirect is sent, the `TypeError` leaves the handler. -/
theorem register_absent_password_raises :
    (postRegister sampleEnv aliceFormNoPassword bobOnlyState).response =
      .uncaught "TypeError: Cannot read properties of undefined (reading 'length')" ∧
    (∀ status page,
      (postRegister sampleEnv aliceFormNoPassword bobOnlyState).response ≠
        .render status page) ∧
    (∀ location,
      (postRegister sampleEnv aliceFormNoPassword bobOnlyState).response ≠
        .redirect location) := by
  have h : (postRegister sampleEnv aliceFormNoPassword bobOnlyState).response =
      .uncaught "TypeError: Cannot read properties of undefined (reading 'length')" := by
    decide
  refine ⟨h, ?_, ?_⟩
  · intro status page hr
    rw [h] at hr
    cases hr
  · intro location hr
    rw [h] at hr
    cases hr

/-! ## Registration: a failed validation changes nothing -/

/-- C15: when the validation of a registration does not come back without
errors, the state after the request is the state before it: no statement is
sent to the store, the tables are as they were and the session still has no
user. -/
theorem register_invalid_no_mutation (env : Env) (body : RegisterForm) (st : State)
    (hs : st.session.user = none) (hinv : registerValidation body ≠ .ok []) :
    (postRegister env body st).state = st ∧
    (postRegister env body st).state.store.log = st.store.log ∧
    (postRegister env body st).state.store.db = st.store.db ∧
    (postRegister env body st).state.session.user = none := by
  have hpost : postRegister env body st = registerHandler env body st := by
    simp [postRegister, route, isNotAuthenticated, hs]
  have hstate : (registerHandler env body st).state = st := by
    unfold registerHandler
    cases hv : registerValidation body with
    | error e => rfl
    | ok errs =>
      cases errs with
      | nil => exact absurd hv hinv
      | cons a l => rfl
  rw [hpost, hstate]
  exact ⟨rfl, rfl, rfl, hs⟩

/-- C15 on the sample data. -/
theorem register_invalid_no_mutation_witness :
    (postRegister sampleEnv badForm bobOnlyState).state = bobOnlyState ∧
    (postRegister sampleEnv badForm bobOnlyState).state.store.log = [] ∧
    (postRegister sampleEnv badForm bobOnlyState).state.session.user = none :=
  have h := register_invalid_no_mutation sampleEnv badForm bobOnlyState rfl
    (by
      intro hv
      have h2 : registerValidation badForm =
          .ok (collectedErrors (some (utf16 "al")) (some (utf16 "al.x.com"))
            (some (utf16 "b")) (utf16 "a")) :=
        registerValidation_present _ _ _ _ _ _
      rw [h2] at hv
      have h3 := Except.ok.inj hv
      revert h3
      decide)
  ⟨h.1, h.2.1, h.2.2.2⟩

/-! ## Registration: the uniqueness check -/

/-- A valid registration without a session user runs the `try` block. -/
theorem postRegister_valid (env : Env) (st : State) (u e p : JsString) (c fn ln : Field)
    (hs : st.session.user = none)
    (hvalid : registerValidation ⟨some u, some e, some p, c, fn, ln⟩ = .ok []) :
    postRegister env ⟨some u, some e, some p, c, fn, ln⟩ st =
      registerStore env ⟨some u, some e, some p, c, fn, ln⟩ u e p st := by
  simp [postRegister, route, isNotAuthenticated, hs, registerHandler, hvalid]

theorem usersByUsernameOrEmail_ne_nil (env : Env) (db : Db) (u e : JsString)
    (hcol : ∃ r ∈ db.users, env.sqlTextEq r.username u = true ∨ env.sqlTextEq r.email e = true) :
    db.usersByUsernameOrEmail env u e ≠ [] := by
  obtain ⟨r, hr, hm⟩ := hcol
  intro hnil
  have hmem : r ∈ db.usersByUsernameOrEmail env u e := by
    simp only [Db.usersByUsernameOrEmail, List.mem_filter, Bool.or_eq_true]
    exact ⟨hr, hm⟩
  rw [hnil] at hmem
  cases hmem

theorem usersByUsernameOrEmail_eq_nil (env : Env) (db : Db) (u e : JsString)
    (hfree : ∀ r ∈ db.users,
      env.sqlTextEq r.username u = false ∧ env.sqlTextEq r.email e = false) :
    db.usersByUsernameOrEmail env u e = [] := by
  simp only [Db.usersByUsernameOrEmail, List.filter_eq_nil_iff]
  intro r hr
  simp [(hfree r hr).1, (hfree r hr).2]

/-- The `try` block when the uniqueness query returns a row. -/
theorem registerStore_collision (env : Env) (body : RegisterForm) (u e p : JsString)
    (st : State) (first : UserRow) (rest : List UserRow)
    (hq : env.queryFails st.store.log.length = false)
    (hrows : st.store.db.usersByUsernameOrEmail env u e = first :: rest) :
    registerStore env body u e p st =
      registerFailure body st
        { db := st.store.db, log := st.store.log ++ [.selectUserByUsernameOrEmail u e] }
        [if first.username == u then msgUsernameTaken else msgEmailRegistered] := by
  simp [registerStore, Env.select, Env.query, hq, hrows]

/-- The `try` block when nothing collides and nothing is rejected. -/
theorem registerStore_success (env : Env) (body : RegisterForm) (u e p h : JsString)
    (st : State)
    (hfree : ∀ r ∈ st.store.db.users,
      env.sqlTextEq r.username u = false ∧ env.sqlTextEq r.email e = false)
    (hhash : env.bcryptHash p 10 = some h)
    (hq0 : env.queryFails st.store.log.length = false)
    (hq1 : env.queryFails (st.store.log.length + 1) = false)
    (hq2 : env.queryFails (st.store.log.length + 2) = false) :
    registerStore env body u e p st =
      { state :=
          { session :=
              { st.session with
                user := some
                  { id := st.store.db.nextUserId, username := u, email := e,
                    profile := .names body.firstName body.lastName }
                success := some
                  (utf16 "Account created successfully! Welcome to Fitness Tracker!") }
            store :=
              { db :=
                  { st.store.db with
                    users := st.store.db.users ++
                      [{ id := st.store.db.nextUserId, username := u, email := e,
                         password_hash := h }]
                    user_profiles := st.store.db.user_profiles ++
                      [{ user_id := st.store.db.nextUserId,
                         first_name := .orNull body.firstName,
                         last_name := .orNull body.lastName }]
                    nextUserId := st.store.db.nextUserId + 1 }
                log := st.store.log ++
                  [.selectUserByUsernameOrEmail u e, .insertUser u e h,
                   .insertProfile st.store.db.nextUserId (.orNull body.firstName)
                     (.orNull body.lastName)] } }
        response := .redirect (getBasePath env ++ utf16 "/") } := by
  simp [registerStore, Env.select, Env.query, hq0, hq1, hq2, hhash,
    usersByUsernameOrEmail_eq_nil env _ u e hfree, Db.insertUser, Db.insertProfile]

/-- C13 fails as stated: on a store whose first user has the submitted email
and whose second user has the submitted username, a valid registration of
that username is answered with "Email already registered", not with
"Username already taken". -/
theorem register_collision_counterexample :
    (∃ r ∈ clashState.store.db.users, r.username = utf16 "alice") ∧
    registerValidation aliceForm = .ok [] ∧
    (postRegister sampleEnv aliceForm clashState).response =
      .render 200 (.authRegister registerTitle [msgEmailRegistered]
        ⟨some (utf16 "alice"), some (utf16 "alice@x.com"), some (utf16 "Alice"), none⟩) ∧
    (postRegister sampleEnv aliceForm clashState).response ≠
      .render 200 (.authRegister registerTitle [msgUsernameTaken]
        ⟨some (utf16 "alice"), some (utf16 "alice@x.com"), some (utf16 "Alice"), none⟩) := by
  refine ⟨by decide, rfl, by decide, by decide⟩

/-- C13 as amended: for a valid registration without a session user whose
uniqueness query is not rejected, the message follows the first user that the
store returns for the submitted username or email: "Username already taken"
when that user has the submitted username; and when no user has the submitted
username but some user has the submitted email (for the store), the result is
exactly "Email already registered". -/
theorem register_collision_message (env : Env) (st : State) (u e p : JsString)
    (c fn ln : Field) (hs : st.session.user = none)
    (hvalid : registerValidation ⟨some u, some e, some p, c, fn, ln⟩ = .ok [])
    (hq : env.queryFails st.store.log.length = false) :
    (∀ first rest, st.store.db.usersByUsernameOrEmail env u e = first :: rest →
      first.username = u →
      (postRegister env ⟨some u, some e, some p, c, fn, ln⟩ st).response =
        .render 200 (.authRegister registerTitle [msgUsernameTaken]
          ⟨some u, some e, fn, ln⟩)) ∧
    ((∀ r ∈ st.store.db.users, r.username ≠ u) →
      (∃ r ∈ st.store.db.users, env.sqlTextEq r.email e = true) →
      (postRegister env ⟨some u, some e, some p, c, fn, ln⟩ st).response =
        .render 200 (.authRegister registerTitle [msgEmailRegistered]
          ⟨some u, some e, fn, ln⟩)) := by
  rw [postRegister_valid env st u e p c fn ln hs hvalid]
  constructor
  · intro first rest hrows hfirst
    rw [registerStore_collision env _ u e p st first rest hq hrows]
    simp [registerFailure, hfirst]
  · intro hno hsome
    have hne := usersByUsernameOrEmail_ne_nil env st.store.db u e
      (by obtain ⟨r, hr, h⟩ := hsome; exact ⟨r, hr, Or.inr h⟩)
    cases hrows : st.store.db.usersByUsernameOrEmail env u e with
    | nil => exact absurd hrows hne
    | cons first rest =>
      have hmem : first ∈ st.store.db.users := by
        have : first ∈ st.store.db.usersByUsernameOrEmail env u e := by
          rw [hrows]; exact List.mem_cons_self _ _
        exact (List.mem_filter.1 this).1
      rw [registerStore_collision env _ u e p st first rest hq hrows]
      simp [registerFailure, hno first hmem]

/-- C13 as amended, on the sample data: alice again with another email, and
carol with the email of bob. -/
theorem register_collision_message_witness :
    (postRegister sampleEnv
        ⟨some (utf16 "alice"), some (utf16 "alice2@x.com"), some (utf16 "Abcdef1!"),
          some (utf16 "Abcdef1!"), none, none⟩ anonymousState).response =
      .render 200 (.authRegister registerTitle [msgUsernameTaken]
        ⟨some (utf16 "alice"), some (utf16 "alice2@x.com"), none, none⟩) ∧
    (postRegister sampleEnv
        ⟨some (utf16 "carol"), some (utf16 "bob@x.com"), some (utf16 "Abcdef1!"),
          some (utf16 "Abcdef1!"), none, none⟩ anonymousState).response =
      .render 200 (.authRegister registerTitle [msgEmailRegistered]
        ⟨some (utf16 "carol"), some (utf16 "bob@x.com"), none, none⟩) :=
  ⟨(register_collision_message sampleEnv anonymousState (utf16 "alice") (utf16 "alice2@x.com")
      (utf16 "Abcdef1!") (some (utf16 "Abcdef1!")) none none rfl rfl rfl).1 alice [] rfl rfl,
    (register_collision_message sampleEnv anonymousState (utf16 "carol") (utf16 "bob@x.com")
      (utf16 "Abcdef1!") (some (utf16 "Abcdef1!")) none none rfl rfl rfl).2 (by decide)
      (by decide)⟩

/-- C14: when a valid registration collides with a user that has the
submitted username or email, the database is as it was, the uniqueness query
is the only statement sent (no insert), and the session is as it was, without
a user. -/
theorem register_collision_no_write (env : Env) (st : State) (u e p : JsString)
    (c fn ln : Field) (hs : st.session.user = none)
    (hvalid : registerValidation ⟨some u, some e, some p, c, fn, ln⟩ = .ok [])
    (hcol : ∃ r ∈ st.store.db.users,
      env.sqlTextEq r.username u = true ∨ env.sqlTextEq r.email e = true) :
    (postRegister env ⟨some u, some e, some p, c, fn, ln⟩ st).state.store.db = st.store.db ∧
    (postRegister env ⟨some u, some e, some p, c, fn, ln⟩ st).state.store.log =
      st.store.log ++ [.selectUserByUsernameOrEmail u e] ∧
    (postRegister env ⟨some u, some e, some p, c, fn, ln⟩ st).state.session = st.session ∧
    (postRegister env ⟨some u, some e, some p, c, fn, ln⟩ st).state.session.user = none ∧
    (∃ msg, (postRegister env ⟨some u, some e, some p, c, fn, ln⟩ st).response =
      .render 200 (.authRegister registerTitle [msg] ⟨some u, some e, fn, ln⟩)) := by
  rw [postRegister_valid env st u e p c fn ln hs hvalid]
  have hne := usersByUsernameOrEmail_ne_nil env st.store.db u e hcol
  by_cases hq : env.queryFails st.store.log.length = true
  · have h : registerStore env ⟨some u, some e, some p, c, fn, ln⟩ u e p st =
        registerFailure ⟨some u, some e, some p, c, fn, ln⟩ st
          { db := st.store.db, log := st.store.log ++ [.selectUserByUsernameOrEmail u e] }
          [msgRegisterFault] := by
      simp [registerStore, Env.select, Env.query, hq]
    rw [h]
    exact ⟨rfl, rfl, rfl, hs, _, rfl⟩
  · cases hrows : st.store.db.usersByUsernameOrEmail env u e with
    | nil => exact absurd hrows hne
    | cons first rest =>
      rw [registerStore_collision env _ u e p st first rest (by simpa using hq) hrows]
      exact ⟨rfl, rfl, rfl, hs, _, rfl⟩

/-- C14 on the sample data: alice again. -/
theorem register_collision_no_write_witness :
    (postRegister sampleEnv aliceForm anonymousState).state.store.db = sampleDb ∧
    (postRegister sampleEnv aliceForm anonymousState).state.store.log =
      [.selectUserByUsernameOrEmail (utf16 "alice") (utf16 "alice@x.com")] ∧
    (postRegister sampleEnv aliceForm anonymousState).state.session.user = none :=
  have h := register_collision_no_write sampleEnv anonymousState (utf16 "alice")
    (utf16 "alice@x.com") (utf16 "Abcdef1!") (some (utf16 "Abcdef1!")) (some (utf16 "Alice"))
    none rfl rfl (by decide)
  ⟨h.1, h.2.1, h.2.2.2.1⟩

/-! ## Registration: success -/

/-- C16: after a valid registration without collision, with the hash computed
at cost 10 and the three statements accepted, the database has gained exactly
one user row, with the generated id, the submitted username and email and the
hash as password, and one profile row with that id; the plaintext is stored
only if the hash equals it; and the session user has the generated id and the
submitted username and email. -/
theorem register_success (env : Env) (st : State) (u e p h : JsString) (c fn ln : Field)
    (hs : st.session.user = none)
    (hvalid : registerValidation ⟨some u, some e, some p, c, fn, ln⟩ = .ok [])
    (hfree : ∀ r ∈ st.store.db.users,
      env.sqlTextEq r.username u = false ∧ env.sqlTextEq r.email e = false)
    (hhash : env.bcryptHash p 10 = some h)
    (hq0 : env.queryFails st.store.log.length = false)
    (hq1 : env.queryFails (st.store.log.length + 1) = false)
    (hq2 : env.queryFails (st.store.log.length + 2) = false) :
    (postRegister env ⟨some u, some e, some p, c, fn, ln⟩ st).state.store.db =
      { st.store.db with
        users := st.store.db.users ++
          [{ id := st.store.db.nextUserId, username := u, email := e, password_hash := h }]
        user_profiles := st.store.db.user_profiles ++
          [{ user_id := st.store.db.nextUserId, first_name := .orNull fn,
             last_name := .orNull ln }]
        nextUserId := st.store.db.nextUserId + 1 } ∧
    (postRegister env ⟨some u, some e, some p, c, fn, ln⟩ st).state.store.log =
      st.store.log ++
        [.selectUserByUsernameOrEmail u e, .insertUser u e h,
         .insertProfile st.store.db.nextUserId (.orNull fn) (.orNull ln)] ∧
    (h ≠ p →
      ∀ r ∈ (postRegister env ⟨some u, some e, some p, c, fn, ln⟩ st).state.store.db.users,
        r ∉ st.store.db.users → r.password_hash ≠ p) ∧
    (postRegister env ⟨some u, some e, some p, c, fn, ln⟩ st).state.session.user =
      some { id := st.store.db.nextUserId, username := u, email := e,
             profile := .names fn ln } ∧
    (postRegister env ⟨some u, some e, some p, c, fn, ln⟩ st).response =
      .redirect (getBasePath env ++ utf16 "/") := by
  rw [postRegister_valid env st u e p c fn ln hs hvalid,
    registerStore_success env _ u e p h st hfree hhash hq0 hq1 hq2]
  refine ⟨rfl, rfl, ?_, rfl, rfl⟩
  intro hne r hr hnew
  simp only [List.mem_append, List.mem_singleton] at hr
  rcases hr with hr | hr
  · exact absurd hr hnew
  · rw [hr]; exact hne

/-- C16 on the sample data: alice registers where only bob is a user. -/
theorem register_success_witness :
    (postRegister sampleEnv aliceForm bobOnlyState).state.store.db.users =
      [bob, { id := 3, username := utf16 "alice", email := utf16 "alice@x.com",
              password_hash := utf16 "hash:Abcdef1!" }] ∧
    (postRegister sampleEnv aliceForm bobOnlyState).state.store.db.user_profiles =
      [{ user_id := 3, first_name := .text (utf16 "Alice"), last_name := .null }] ∧
    (postRegister sampleEnv aliceForm bobOnlyState).state.session.user =
      some { id := 3, username := utf16 "alice", email := utf16 "alice@x.com",
             profile := .names (some (utf16 "Alice")) none } :=
  have h := register_success sampleEnv bobOnlyState (utf16 "alice") (utf16 "alice@x.com")
    (utf16 "Abcdef1!") (utf16 "hash:Abcdef1!") (some (utf16 "Abcdef1!"))
    (some (utf16 "Alice")) none rfl rfl (by decide) rfl rfl rfl rfl
  ⟨congrArg Db.users h.1, congrArg Db.user_profiles h.1, h.2.2.2.1⟩

/-- C20: `validatePassword("Abcdef1!")` is valid without violations, and the
registration of alice / alice@x.com with that password and confirmation, on a
store where no user has that username or email and nothing is rejected, ends
in the redirect with a session user whose username is alice. -/
theorem scenario_register_alice (env : Env) (st : State) (h : JsString) (fn ln : Field)
    (hs : st.session.user = none)
    (hfree : ∀ r ∈ st.store.db.users,
      env.sqlTextEq r.username (utf16 "alice") = false ∧
      env.sqlTextEq r.email (utf16 "alice@x.com") = false)
    (hhash : env.bcryptHash (utf16 "Abcdef1!") 10 = some h)
    (hq0 : env.queryFails st.store.log.length = false)
    (hq1 : env.queryFails (st.store.log.length + 1) = false)
    (hq2 : env.queryFails (st.store.log.length + 2) = false) :
    validatePassword (utf16 "Abcdef1!") = { isValid := true, errors := [] } ∧
    (postRegister env
        ⟨some (utf16 "alice"), some (utf16 "alice@x.com"), some (utf16 "Abcdef1!"),
          some (utf16 "Abcdef1!"), fn, ln⟩ st).response =
      .redirect (getBasePath env ++ utf16 "/") ∧
    (∃ user,
      (postRegister env
        ⟨some (utf16 "alice"), some (utf16 "alice@x.com"), some (utf16 "Abcdef1!"),
          some (utf16 "Abcdef1!"), fn, ln⟩ st).state.session.user = some user ∧
      user.username = utf16 "alice" ∧ user.id = st.store.db.nextUserId) := by
  have hvalid : registerValidation
      ⟨some (utf16 "alice"), some (utf16 "alice@x.com"), some (utf16 "Abcdef1!"),
        some (utf16 "Abcdef1!"), fn, ln⟩ = .ok [] := by
    rw [registerValidation_present]
    exact congrArg Except.ok (by decide)
  rw [postRegister_valid env st _ _ _ _ fn ln hs hvalid,
    registerStore_success env _ _ _ _ h st hfree hhash hq0 hq1 hq2]
  exact ⟨by decide, rfl, _, rfl, rfl, rfl⟩

/-- C20 on the sample data: the store where only bob is a user. -/
theorem scenario_register_alice_witness :
    validatePassword (utf16 "Abcdef1!") = { isValid := true, errors := [] } ∧
    (postRegister sampleEnv aliceForm bobOnlyState).response = .redirect (utf16 "/") ∧
    (∃ user,
      (postRegister sampleEnv aliceForm bobOnlyState).state.session.user = some user ∧
      user.username = utf16 "alice" ∧ user.id = 3) :=
  scenario_register_alice sampleEnv bobOnlyState (utf16 "hash:Abcdef1!")
    (some (utf16 "Alice")) none rfl (by decide) rfl rfl rfl rfl

/-! ## Login: the session it establishes -/

/-- Login with a username that exists and a password that its hash accepts,
nothing being rejected. -/
theorem loginFields_success (env : Env) (st : State) (u p : JsString) (user : UserRow)
    (rest : List UserRow) (hu : u ≠ []) (hp : p ≠ [])
    (hq0 : env.queryFails st.store.log.length = false)
    (hrows : st.store.db.usersByUsername env u = user :: rest)
    (hcmp : env.bcryptCompare p user.password_hash = some true)
    (hq1 : env.queryFails (st.store.log.length + 1) = false) :
    loginFields env ⟨some u, some p⟩ st =
      { state :=
          { session :=
              { st.session with
                user := some
                  { id := user.id, username := user.username, email := user.email,
                    profile :=
                      match st.store.db.profilesByUserId user.id with
                      | [] => .null
                      | pr :: _ => .row pr }
                success := some (utf16 "Welcome back, " ++ user.username ++ utf16 "!") }
            store :=
              { db := st.store.db,
                log := st.store.log ++
                  [.selectUserByUsername u, .selectProfileByUserId user.id] } }
        response := .redirect (getBasePath env ++ utf16 "/") } := by
  simp [loginFields, hu, hp, Env.select, Env.query, hq0, hq1, hrows, hcmp]

/-- The rows that a filter keeps start with the first row that passes. -/
theorem filter_of_find_some {α : Type} (p : α → Bool) (l : List α) (a : α)
    (h : l.find? p = some a) : ∃ rest, l.filter p = a :: rest := by
  induction l with
  | nil => simp at h
  | cons b t ih =>
    by_cases hb : p b = true
    · simp only [List.find?_cons, hb, Option.some.injEq] at h
      subst h
      exact ⟨t.filter p, by simp [List.filter_cons, hb]⟩
    · simp only [List.find?_cons, hb] at h
      obtain ⟨rest, hrest⟩ := ih h
      exact ⟨rest, by simp [List.filter_cons, hb, hrest]⟩

/-- A filter keeps nothing when no row passes. -/
theorem filter_of_find_none {α : Type} (p : α → Bool) (l : List α)
    (h : l.find? p = none) : l.filter p = [] := by
  rw [List.filter_eq_nil_iff]
  intro a ha
  exact List.find?_eq_none.1 h a ha

/-- C17: after a successful login the session user is the record of the id,
username and email of the first user row that has the submitted username and
of the first row of `user_profiles` with the id of that user, or `null` when
no row has it, and the rest of the session is the welcome message; after a
successful registration it is the record of the generated id, the submitted
username and email and the two submitted names. Neither record has a place for
the password hash. -/
theorem session_user_projection (env : Env) (st1 st2 : State) (u1 p1 : JsString)
    (user : UserRow) (u2 e2 p2 h2 : JsString) (c fn ln : Field)
    (hs1 : st1.session.user = none) (hu : u1 ≠ []) (hp : p1 ≠ [])
    (hq0 : env.queryFails st1.store.log.length = false)
    (hrow : st1.store.db.users.find? (fun r => env.sqlTextEq r.username u1) = some user)
    (hcmp : env.bcryptCompare p1 user.password_hash = some true)
    (hq1 : env.queryFails (st1.store.log.length + 1) = false)
    (hs2 : st2.session.user = none)
    (hvalid : registerValidation ⟨some u2, some e2, some p2, c, fn, ln⟩ = .ok [])
    (hfree : ∀ r ∈ st2.store.db.users,
      env.sqlTextEq r.username u2 = false ∧ env.sqlTextEq r.email e2 = false)
    (hhash : env.bcryptHash p2 10 = some h2)
    (hr0 : env.queryFails st2.store.log.length = false)
    (hr1 : env.queryFails (st2.store.log.length + 1) = false)
    (hr2 : env.queryFails (st2.store.log.length + 2) = false) :
    (postLogin env ⟨some u1, some p1⟩ st1).state.session =
      { user := some
          { id := user.id, username := user.username, email := user.email,
            profile :=
              match st1.store.db.user_profiles.find? (fun r => r.user_id == user.id) with
              | none => .null
              | some pr => .row pr }
        success := some (utf16 "Welcome back, " ++ user.username ++ utf16 "!")
        error := st1.session.error } ∧
    (postRegister env ⟨some u2, some e2, some p2, c, fn, ln⟩ st2).state.session =
      { user := some
          { id := st2.store.db.nextUserId, username := u2, email := e2,
            profile := .names fn ln }
        success := some (utf16 "Account created successfully! Welcome to Fitness Tracker!")
        error := st2.session.error } := by
  constructor
  · have h : postLogin env ⟨some u1, some p1⟩ st1 = loginFields env ⟨some u1, some p1⟩ st1 := by
      simp [postLogin, postLoginRequest, loginHandler, route, isNotAuthenticated, hs1]
    obtain ⟨rest, hrows⟩ := filter_of_find_some _ _ _ hrow
    rw [h, loginFields_success env st1 u1 p1 user rest hu hp hq0 hrows hcmp hq1]
    cases hpr : st1.store.db.user_profiles.find? (fun r => r.user_id == user.id) with
    | none =>
      have hnil := filter_of_find_none _ _ hpr
      simp only [Db.profilesByUserId, hnil]
    | some pr =>
      obtain ⟨more, hmore⟩ := filter_of_find_some _ _ _ hpr
      simp only [Db.profilesByUserId, hmore]
  · rw [postRegister_valid env st2 u2 e2 p2 c fn ln hs2 hvalid,
      registerStore_success env _ u2 e2 p2 h2 st2 hfree hhash hr0 hr1 hr2]

/-- C17 on the sample data: alice logs in where she has two profile rows, and
registers where only bob is a user. -/
theorem session_user_projection_witness :
    (postLogin sampleEnv ⟨some (utf16 "alice"), some (utf16 "Abcdef1!")⟩
        profileState).state.session.user =
      some { id := 1, username := utf16 "alice", email := utf16 "alice@x.com",
             profile := .row { user_id := 1, first_name := .text (utf16 "Alice"),
                               last_name := .text (utf16 "Liddell") } } ∧
    (postRegister sampleEnv aliceForm bobOnlyState).state.session.user =
      some { id := 3, username := utf16 "alice", email := utf16 "alice@x.com",
             profile := .names (some (utf16 "Alice")) none } :=
  have h := session_user_projection sampleEnv profileState bobOnlyState (utf16 "alice")
    (utf16 "Abcdef1!") alice (utf16 "alice") (utf16 "alice@x.com") (utf16 "Abcdef1!")
    (utf16 "hash:Abcdef1!") (some (utf16 "Abcdef1!")) (some (utf16 "Alice")) none
    rfl (by decide) (by decide) rfl (by decide) (by decide) rfl
    rfl rfl (by decide) rfl rfl rfl rfl
  ⟨(congrArg Session.user h.1).trans (by decide), congrArg Session.user h.2⟩

/-! ## Login: never fatal -/

/-- C18, at a login request without a session user on which no body parser has
filled `req.body`: the handler raises at line 25, before the `try` block; no
view is rendered and no redirect is sent, the `TypeError` leaves the handler. -/
theorem login_unparsed_body_raises :
    (postLoginRequest sampleEnv none anonymousState).response =
      .uncaught
        "TypeError: Cannot destructure property 'username' of 'req.body' as it is undefined." ∧
    (∀ status page,
      (postLoginRequest sampleEnv none anonymousState).response ≠ .render status page) ∧
    (∀ location,
      (postLoginRequest sampleEnv none anonymousState).response ≠ .redirect location) := by
  have h : (postLoginRequest sampleEnv none anonymousState).response =
      .uncaught
        "TypeError: Cannot destructure property 'username' of 'req.body' as it is undefined." := by
    decide
  refine ⟨h, ?_, ?_⟩
  · intro status page hr
    rw [h] at hr
    cases hr
  · intro location hr
    rw [h] at hr
    cases hr

/-- Login on a parsed body is never fatal: for every parsed body (its fields
absent or strings), every store and every behaviour of the store and of the
hash comparison, a login without a session user ends either in the login view
with one of the three messages of the handler and the session as it was, or in
the redirect with a session user taken from a user row that has the submitted
username and whose hash accepts the submitted password. -/
theorem login_never_fatal (env : Env) (body : LoginForm) (st : State)
    (hs : st.session.user = none) :
    (∃ msg, msg ∈ [msgMissingCredentials, msgInvalidCredentials, msgLoginFault] ∧
      (postLoginRequest env (some body) st).response = .render 200 (.authLogin loginTitle [msg]) ∧
      (postLoginRequest env (some body) st).state.session = st.session) ∨
    (∃ u p row su, body.username = some u ∧ body.password = some p ∧
      row ∈ st.store.db.users ∧ env.sqlTextEq row.username u = true ∧
      env.bcryptCompare p row.password_hash = some true ∧
      (postLoginRequest env (some body) st).state.session.user = some su ∧
      su.id = row.id ∧ su.username = row.username ∧ su.email = row.email ∧
      (postLoginRequest env (some body) st).response = .redirect (getBasePath env ++ utf16 "/")) := by
  have hpost : postLoginRequest env (some body) st = loginFields env body st := by
    simp [postLoginRequest, loginHandler, route, isNotAuthenticated, hs]
  rw [hpost]
  obtain ⟨username, password⟩ := body
  cases username with
  | none => exact Or.inl ⟨msgMissingCredentials, by simp, by cases password <;> rfl,
      by cases password <;> rfl⟩
  | some u =>
    cases password with
    | none => exact Or.inl ⟨msgMissingCredentials, by simp, rfl, rfl⟩
    | some p =>
      by_cases hu : u = []
      · exact Or.inl ⟨msgMissingCredentials, by simp, by simp [loginFields, hu, loginFailure],
          by simp [loginFields, hu, loginFailure]⟩
      by_cases hp : p = []
      · exact Or.inl ⟨msgMissingCredentials, by simp, by simp [loginFields, hp, loginFailure],
          by simp [loginFields, hp, loginFailure]⟩
      by_cases hq0 : env.queryFails st.store.log.length = true
      · exact Or.inl ⟨msgLoginFault, by simp,
          by simp [loginFields, hu, hp, Env.select, Env.query, hq0, loginFailure],
          by simp [loginFields, hu, hp, Env.select, Env.query, hq0, loginFailure]⟩
      cases hrows : st.store.db.usersByUsername env u with
      | nil =>
        exact Or.inl ⟨msgInvalidCredentials, by simp,
          by simp [loginFields, hu, hp, Env.select, Env.query, hq0, hrows, loginFailure],
          by simp [loginFields, hu, hp, Env.select, Env.query, hq0, hrows, loginFailure]⟩
      | cons user rest =>
        obtain ⟨hmem, hmatch⟩ := usersByUsername_head env _ u user rest hrows
        cases hcmp : env.bcryptCompare p user.password_hash with
        | none =>
          exact Or.inl ⟨msgLoginFault, by simp,
            by simp [loginFields, hu, hp, Env.select, Env.query, hq0, hrows, hcmp,
              loginFailure],
            by simp [loginFields, hu, hp, Env.select, Env.query, hq0, hrows, hcmp,
              loginFailure]⟩
        | some ok =>
          cases ok with
          | false =>
            exact Or.inl ⟨msgInvalidCredentials, by simp,
              by simp [loginFields, hu, hp, Env.select, Env.query, hq0, hrows, hcmp,
                loginFailure],
              by simp [loginFields, hu, hp, Env.select, Env.query, hq0, hrows, hcmp,
                loginFailure]⟩
          | true =>
            by_cases hq1 : env.queryFails (st.store.log.length + 1) = true
            · exact Or.inl ⟨msgLoginFault, by simp,
                by simp [loginFields, hu, hp, Env.select, Env.query, hq0, hrows, hcmp, hq1,
                  loginFailure],
                by simp [loginFields, hu, hp, Env.select, Env.query, hq0, hrows, hcmp, hq1,
                  loginFailure]⟩
            · refine Or.inr ⟨u, p, user,
                { id := user.id, username := user.username, email := user.email,
                  profile :=
                    match st.store.db.profilesByUserId user.id with
                    | [] => .null
                    | pr :: _ => .row pr },
                rfl, rfl, hmem, hmatch, hcmp, ?_⟩
              rw [loginFields_success env st u p user rest hu hp (by simpa using hq0) hrows
                hcmp (by simpa using hq1)]
              exact ⟨rfl, rfl, rfl, rfl, rfl⟩

/-- Login on the sample data: alice with a wrong password gets the login
view. -/
theorem login_never_fatal_witness :
    (∃ msg, msg ∈ [msgMissingCredentials, msgInvalidCredentials, msgLoginFault] ∧
      (postLoginRequest sampleEnv (some ⟨some (utf16 "alice"), some (utf16 "wrong")⟩)
        anonymousState).response = .render 200 (.authLogin loginTitle [msg]) ∧
      (postLoginRequest sampleEnv (some ⟨some (utf16 "alice"), some (utf16 "wrong")⟩)
        anonymousState).state.session = anonymousState.session) ∨
    (∃ u p row su,
      (⟨some (utf16 "alice"), some (utf16 "wrong")⟩ : LoginForm).username = some u ∧
      (⟨some (utf16 "alice"), some (utf16 "wrong")⟩ : LoginForm).password = some p ∧
      row ∈ anonymousState.store.db.users ∧ sampleEnv.sqlTextEq row.username u = true ∧
      sampleEnv.bcryptCompare p row.password_hash = some true ∧
      (postLoginRequest sampleEnv (some ⟨some (utf16 "alice"), some (utf16 "wrong")⟩)
        anonymousState).state.session.user = some su ∧
      su.id = row.id ∧ su.username = row.username ∧ su.email = row.email ∧
      (postLoginRequest sampleEnv (some ⟨some (utf16 "alice"), some (utf16 "wrong")⟩)
        anonymousState).response = .redirect (getBasePath sampleEnv ++ utf16 "/")) :=
  login_never_fatal sampleEnv ⟨some (utf16 "alice"), some (utf16 "wrong")⟩ anonymousState rfl

/-! ## Logout -/

/-- C19 fails as stated: when `destroy` reports an error and the store keeps
the entry, logout still redirects, and the session that later requests resolve
still has its user. -/
theorem logout_destroy_error_counterexample :
    (getLogout sampleEnv (.failed "store unreachable" true) bobState).response =
      .redirect (utf16 "/") ∧
    (getLogout sampleEnv (.failed "store unreachable" true) bobState).state.session.user =
      some bobUser := by
  decide

/-- C19 as amended: logout answers every session state and every outcome of
`destroy` with the redirect to the base path followed by `/`; when the store
has no entry left after `destroy`, the session resolves to no user, and a
second logout, whatever its `destroy` reports, gives the same response and the
same session without user; the database is never touched. -/
theorem logout_idempotent (env : Env) (d d2 : DestroyOutcome) (st : State)
    (hgone : d.entryGone = true) :
    (∀ (d' : DestroyOutcome) (st' : State),
      (getLogout env d' st').response = .redirect (getBasePath env ++ utf16 "/") ∧
      (getLogout env d' st').state.store = st'.store) ∧
    (getLogout env d st).state.session.user = none ∧
    (getLogout env d2 (getLogout env d st).state).response = (getLogout env d st).response ∧
    (getLogout env d2 (getLogout env d st).state).state.session =
      (getLogout env d st).state.session ∧
    (getLogout env d2 (getLogout env d st).state).state.session.user = none := by
  have hfirst : (getLogout env d st).state.session = newSession := by
    cases d with
    | removed => rfl
    | failed err kept =>
      cases kept with
      | true => simp [DestroyOutcome.entryGone] at hgone
      | false => rfl
  have hsecond : (getLogout env d2 (getLogout env d st).state).state.session = newSession := by
    cases d2 with
    | removed => rfl
    | failed err kept =>
      cases kept with
      | true => simpa [getLogout, logoutHandler] using hfirst
      | false => rfl
  refine ⟨?_, ?_, ?_, ?_, ?_⟩
  · intro d' st'
    cases d' <;> exact ⟨rfl, rfl⟩
  · rw [hfirst]; rfl
  · cases d <;> cases d2 <;> rfl
  · rw [hsecond, hfirst]
  · rw [hsecond]; rfl

/-- C19 as amended, on the sample data: bob logs out twice, the second
`destroy` reporting an error. -/
theorem logout_idempotent_witness :
    (getLogout sampleEnv .removed bobState).response = .redirect (utf16 "/") ∧
    (getLogout sampleEnv .removed bobState).state.session.user = none ∧
    (getLogout sampleEnv (.failed "store unreachable" true)
      (getLogout sampleEnv .removed bobState).state).response = .redirect (utf16 "/") ∧
    (getLogout sampleEnv (.failed "store unreachable" true)
      (getLogout sampleEnv .removed bobState).state).state.session.user = none :=
  have h := logout_idempotent sampleEnv .removed (.failed "store unreachable" true) bobState rfl
  ⟨(h.1 .removed bobState).1, h.2.1,
    (h.1 (.failed "store unreachable" true) (getLogout sampleEnv .removed bobState).state).1,
    h.2.2.2.2⟩

/-! ## The session cookie -/

/-- C21: the configured `maxAge` of the session cookie, `24 * 60 * 60 * 1000`
milliseconds, is 86,400,000 milliseconds, which is 24 hours. -/
theorem session_maxAge_24h :
    sessionOptions.cookie.maxAge = 86400000 ∧
    sessionOptions.cookie.maxAge = 24 * (60 * 60 * 1000) := by
  decide

/-! ## The two guards -/

/-- C24: for every session exactly one of `isAuthenticated` and
`isNotAuthenticated` calls `next()`; with a session user, every route behind
`isNotAuthenticated`, so the login and the register route, answers with the
redirect to `/` whatever its handler is, and leaves the state, so the session
user, as it was. -/
theorem guards_complementary (env : Env) (login : LoginForm) (register : RegisterForm)
    (st : State) (u : SessionUser) (hu : st.session.user = some u) :
    (∀ session : Session,
      (isAuthenticated session = .next ∧ isNotAuthenticated session ≠ .next) ∨
      (isAuthenticated session ≠ .next ∧ isNotAuthenticated session = .next)) ∧
    (∀ handler : State → Result,
      route isNotAuthenticated handler st =
        { state := st, response := .redirect (utf16 "/") }) ∧
    postLogin env login st = { state := st, response := .redirect (utf16 "/") } ∧
    postRegister env register st = { state := st, response := .redirect (utf16 "/") } ∧
    (postLogin env login st).state.session.user = some u ∧
    (postRegister env register st).state.session.user = some u := by
  have hroute : ∀ handler : State → Result,
      route isNotAuthenticated handler st =
        { state := st, response := .redirect (utf16 "/") } := by
    intro handler
    simp [route, isNotAuthenticated, hu]
  refine ⟨?_, hroute, hroute _, hroute _, ?_, ?_⟩
  · intro session
    cases h : session.user <;> simp [isAuthenticated, isNotAuthenticated, h]
  · rw [postLogin, postLoginRequest, hroute]; exact hu
  · rw [postRegister, hroute]; exact hu

/-- C24 on the sample data: bob, logged in, posts the login of alice and a
registration. -/
theorem guards_complementary_witness :
    postLogin sampleEnv ⟨some (utf16 "alice"), some (utf16 "Abcdef1!")⟩ bobState =
      { state := bobState, response := .redirect (utf16 "/") } ∧
    postRegister sampleEnv aliceForm bobState =
      { state := bobState, response := .redirect (utf16 "/") } ∧
    (postLogin sampleEnv ⟨some (utf16 "alice"), some (utf16 "Abcdef1!")⟩
      bobState).state.session.user = some bobUser :=
  have h := guards_complementary sampleEnv ⟨some (utf16 "alice"), some (utf16 "Abcdef1!")⟩
    aliceForm bobState bobUser rfl
  ⟨h.2.2.1, h.2.2.2.1, h.2.2.2.2.1⟩

/-! ## Goal progress -/

/-- A value that is greater than 0 as a number is truthy. -/
theorem truthy_of_gtZero (v : SqlVal) (h : (cellNumber v).gtZero = true) :
    v.truthy = true := by
  cases v with
  | null => simp [cellNumber, JsNumber.gtZero] at h
  | int n =>
    by_cases hn : n = 0
    · subst hn
      simp [cellNumber, toDouble, JsNumber.gtZero] at h
    · simp [SqlVal.truthy, hn]
  | text s =>
    cases s with
    | nil => simp [cellNumber, jsTrim, JsNumber.gtZero] at h
    | cons a l => simp [SqlVal.truthy]

theorem goalProgress_le (env : Env) (goal : GoalRow) : goalProgress env goal ≤ 100 := by
  unfold goalProgress
  split
  · exact min_le_left _ _
  · decide

/-- The goals found for the owner by the key of one of them: that goal first. -/
theorem goalsByIdAndUser_owner (env : Env) (db : Db) (id : JsString) (g : GoalRow)
    (hg : g ∈ db.goals) (hid : env.sqlKey id = some g.id)
    (hkeys : (db.goals.map (fun r => r.id)).Nodup) :
    ∃ rest, db.goalsByIdAndUser env id g.user_id = g :: rest := by
  have hmem : g ∈ db.goalsByIdAndUser env id g.user_id := by
    simp [Db.goalsByIdAndUser, List.mem_filter, hg, ownedMatch, hid]
  cases hl : db.goalsByIdAndUser env id g.user_id with
  | nil => rw [hl] at hmem; cases hmem
  | cons r rest =>
    have hr : r ∈ db.goalsByIdAndUser env id g.user_id := by
      rw [hl]; exact List.mem_cons_self _ _
    simp only [Db.goalsByIdAndUser, List.mem_filter, ownedMatch, Bool.and_eq_true,
      beq_iff_eq] at hr
    have hsame : r = g := by
      apply row_eq_of_keys_nodup (fun r : GoalRow => r.id) db.goals hkeys hr.1 hg
      have := hr.2.1.symm.trans hid
      simpa using this
    exact ⟨rest, by rw [hsame]⟩

set_option maxRecDepth 100000 in
/-- C23 fails as stated: for a goal at 23 of 40 the routes compute
`Math.round((23 / 40) * 100)`, which is 57, since the quotient rounded to
binary64 times 100 is below 57.5; `min(100, round(100 * 23 / 40))` is 58. -/
theorem progress_rounding_counterexample :
    goalProgress jsEnv partGoal = 57 ∧
    roundPercentOf (.text (utf16 "23.00")) (.text (utf16 "40.00")) = 57 ∧
    claimedProgress 23 40 = 58 ∧
    (getGoal jsEnv (utf16 "8") aliceState).response =
      .render 200 (.goalsDetail (utf16 "Run - Fitness Tracker") partGoal 57 none) := by
  decide

/-- C23 as amended: the progress of a goal is
`min(100, Math.round((current_value / target_value) * 100))`, computed as
JavaScript does (the quotient is rounded to binary64 before it is multiplied),
when the target value is present and greater than 0, and 0 otherwise; it never
exceeds 100; and the detail view of a goal and every row of the goal list carry
this same progress. -/
theorem progress_percentage (env : Env) (st : State) (B : SessionUser) (g : GoalRow)
    (id : JsString) (status : Field)
    (hB : st.session.user = some B) (hg : g ∈ st.store.db.goals) (hown : g.user_id = B.id)
    (hid : env.sqlKey id = some g.id)
    (hkeys : (st.store.db.goals.map (fun r => r.id)).Nodup)
    (hq : env.queryFails st.store.log.length = false) :
    (∀ goal : GoalRow,
      goalProgress env goal =
        (if goal.target_value.truthy = true ∧ env.gtZero goal.target_value = true then
          min 100 (env.roundPercent goal.current_value goal.target_value)
         else 0) ∧
      goalProgress env goal ≤ 100) ∧
    (∀ goal : GoalRow,
      goalProgress jsEnv goal =
        (if (cellNumber goal.target_value).gtZero = true then
          min 100 (roundPercentOf goal.current_value goal.target_value)
         else 0)) ∧
    (∃ title days,
      (getGoal env id st).response =
        .render 200 (.goalsDetail title g (goalProgress env g) days)) ∧
    (∃ rows,
      (getGoals env status st).response =
        .render 200 (.goalsList "My Goals - Fitness Tracker" rows (status.getD [])) ∧
      ∀ row ∈ rows, row.2 = goalProgress env row.1) := by
  refine ⟨?_, ?_, ?_, ?_⟩
  · intro goal
    refine ⟨?_, goalProgress_le env goal⟩
    simp [goalProgress]
  · intro goal
    by_cases h : (cellNumber goal.target_value).gtZero = true
    · simp [goalProgress, jsEnv, h, truthy_of_gtZero _ h]
    · simp [goalProgress, jsEnv, h]
  · obtain ⟨rest, hrows⟩ := goalsByIdAndUser_owner env st.store.db id g hg hid hkeys
    rw [hown] at hrows
    exact ⟨g.title.toJsString ++ utf16 " - Fitness Tracker",
      if g.target_date.truthy then some (env.daysRemaining g.target_date) else none, by
      simp [getGoal, route, isAuthenticated, hB, goalViewHandler, Env.select, Env.query, hq,
        hrows]⟩
  · refine ⟨(st.store.db.goalsByUser env B.id (if status.truthy then status else none)).map
        (fun goal => (goal, goalProgress env goal)), by
      simp [getGoals, route, isAuthenticated, hB, goalListHandler, Env.select, Env.query, hq],
      ?_⟩
    intro row hrow
    simp only [List.mem_map] at hrow
    obtain ⟨goal, _, rfl⟩ := hrow
    rfl

set_option maxRecDepth 100000 in
/-- C23 as amended, on the sample data: alice sees 57 for her goal at 23 of 40
in the detail view and in the list. -/
theorem progress_percentage_witness :
    (∃ title days,
      (getGoal jsEnv (utf16 "8") aliceState).response =
        .render 200 (.goalsDetail title partGoal (goalProgress jsEnv partGoal) days)) ∧
    goalProgress jsEnv partGoal = 57 ∧
    (∃ rows,
      (getGoals jsEnv none aliceState).response =
        .render 200 (.goalsList "My Goals - Fitness Tracker" rows []) ∧
      ∀ row ∈ rows, row.2 = goalProgress jsEnv row.1) :=
  have h := progress_percentage jsEnv aliceState aliceUser partGoal (utf16 "8") none rfl
    (by decide) rfl rfl (by decide) rfl
  ⟨h.2.2.1, by decide, h.2.2.2⟩

/-! ## Goal progress: the status written -/

theorem postGoalProgress_owner (env : Env) (st : State) (B : SessionUser) (g : GoalRow)
    (id : JsString) (cv : Field)
    (hB : st.session.user = some B) (hg : g ∈ st.store.db.goals) (hown : g.user_id = B.id)
    (hid : env.sqlKey id = some g.id)
    (hkeys : (st.store.db.goals.map (fun r => r.id)).Nodup)
    (hq0 : env.queryFails st.store.log.length = false)
    (hq1 : env.queryFails (st.store.log.length + 1) = false) :
    (postGoalProgress env id cv st).state.store.db.goals =
      st.store.db.goals.map (fun r =>
        if r.id = g.id then
          { r with current_value := .ofField cv, status := progressStatus env g cv }
        else r) ∧
    (postGoalProgress env id cv st).response = .redirect (utf16 "/goals/" ++ id) := by
  obtain ⟨rest, hrows⟩ := goalsByIdAndUser_owner env st.store.db id g hg hid hkeys
  rw [hown] at hrows
  have hmap : ∀ r ∈ st.store.db.goals,
      (if ownedMatch env id B.id r.id r.user_id = true then
        { r with current_value := SqlVal.ofField cv, status := progressStatus env g cv }
       else r) =
      (if r.id = g.id then
        { r with current_value := SqlVal.ofField cv, status := progressStatus env g cv }
       else r) := by
    intro r hr
    by_cases h : r.id = g.id
    · have hsame : r = g :=
        row_eq_of_keys_nodup (fun r : GoalRow => r.id) _ hkeys hr hg h
      simp [h, ownedMatch, hid, hsame, hown]
    · have hk : env.sqlKey id ≠ some r.id := by
        rw [hid]; intro hh; exact h (Option.some.inj hh).symm
      simp [h, ownedMatch, hk]
  constructor
  · simp only [postGoalProgress, route, isAuthenticated, hB, Option.isSome_some, if_true,
      goalProgressHandler, Env.select, Env.query, hq0, hq1, hrows, Bool.false_eq_true,
      if_false, List.length_append, List.length_singleton, redirectSuccess,
      Db.updateGoalProgress]
    exact List.map_congr_left hmap
  · simp [postGoalProgress, route, isAuthenticated, hB, goalProgressHandler, Env.select,
      Env.query, hq0, hq1, hrows, redirectSuccess]

/-- C22 fails as stated: a goal whose target is 0, which the database gives as
the text `0.00`, is marked completed by a progress update to 1, because the
text is truthy. -/
theorem progress_zero_target_counterexample :
    (parseFloatCell zeroGoal.target_value).ge (.finite ⟨0, 1⟩) = true ∧
    (JsNumber.finite ⟨0, 1⟩).ge (parseFloatCell zeroGoal.target_value) = true ∧
    zeroGoal.status = .text (utf16 "active") ∧
    (postGoalProgress jsEnv (utf16 "9") (some (utf16 "1")) aliceState).state.store.db.goals =
      [aliceGoal, partGoal,
        { zeroGoal with
          current_value := .text (utf16 "1"), status := .text (utf16 "completed") }] := by
  decide

/-- C22 as amended: for the owner of the goal `g`, the progress update writes
the submitted value and the status `completed` when the stored target value is
truthy and `parseFloat` of the submitted value is at least `parseFloat` of the
target, and the stored status otherwise; so the status written is the stored
one or `completed`, a completed goal stays completed, and a submitted value
that `parseFloat` does not read leaves the status as stored. -/
theorem progress_status_rule (env : Env) (st : State) (B : SessionUser) (g : GoalRow)
    (id : JsString) (cv : Field)
    (hB : st.session.user = some B) (hg : g ∈ st.store.db.goals) (hown : g.user_id = B.id)
    (hid : env.sqlKey id = some g.id)
    (hkeys : (st.store.db.goals.map (fun r => r.id)).Nodup)
    (hq0 : env.queryFails st.store.log.length = false)
    (hq1 : env.queryFails (st.store.log.length + 1) = false) :
    (postGoalProgress env id cv st).state.store.db.goals =
      st.store.db.goals.map (fun r =>
        if r.id = g.id then
          { r with current_value := .ofField cv, status := progressStatus env g cv }
        else r) ∧
    (progressStatus env g cv = .text (utf16 "completed") ↔
      (g.target_value.truthy = true ∧ env.parseFloatGe cv g.target_value = true) ∨
        g.status = .text (utf16 "completed")) ∧
    (¬ (g.target_value.truthy = true ∧ env.parseFloatGe cv g.target_value = true) →
      progressStatus env g cv = g.status) ∧
    (g.status = .text (utf16 "completed") →
      progressStatus env g cv = .text (utf16 "completed")) ∧
    (progressStatus env g cv = g.status ∨
      progressStatus env g cv = .text (utf16 "completed")) ∧
    (∀ (s : Field) (t : SqlVal), parseFloatField s = .nan → jsEnv.parseFloatGe s t = false) := by
  refine ⟨(postGoalProgress_owner env st B g id cv hB hg hown hid hkeys hq0 hq1).1,
    ?_, ?_, ?_, ?_, ?_⟩
  · by_cases h : g.target_value.truthy = true ∧ env.parseFloatGe cv g.target_value = true
    · simp [progressStatus, h.1, h.2]
    · have h' : (g.target_value.truthy && env.parseFloatGe cv g.target_value) = false := by
        simpa using h
      simp [progressStatus, h', h]
  · intro h
    have h' : (g.target_value.truthy && env.parseFloatGe cv g.target_value) = false := by
      simpa using h
    simp [progressStatus, h']
  · intro h
    unfold progressStatus
    split
    · rfl
    · exact h
  · unfold progressStatus
    split
    · exact Or.inr rfl
    · exact Or.inl rfl
  · intro s t h
    simp [jsEnv, h, JsNumber.ge]

set_option maxRecDepth 100000 in
/-- C22 as amended, on the sample data: alice moves her goal of target 10 to
12, and to a value that is not a number. -/
theorem progress_status_rule_witness :
    (postGoalProgress jsEnv (utf16 "7") (some (utf16 "12")) aliceState).state.store.db.goals =
      [{ aliceGoal with
          current_value := .text (utf16 "12"), status := .text (utf16 "completed") },
        partGoal, zeroGoal] ∧
    progressStatus jsEnv aliceGoal (some (utf16 "n/a")) = .text (utf16 "active") :=
  have h := progress_status_rule jsEnv aliceState aliceUser aliceGoal (utf16 "7")
    (some (utf16 "12")) rfl (by decide) rfl rfl (by decide) rfl rfl
  have h2 := progress_status_rule jsEnv aliceState aliceUser aliceGoal (utf16 "7")
    (some (utf16 "n/a")) rfl (by decide) rfl rfl (by decide) rfl rfl
  ⟨h.1.trans (by decide), h2.2.2.1 (by decide)⟩

end Health
